import Mathlib

/-!
# Temperature server: a shallow embedding and its verified properties

The development embeds the Go packages `utils`, `viacep` and `weather` of the
temperature server.

Modelling conventions.

* A Go `string` is a finite sequence of bytes (`GoString`); `len` is the number
  of bytes.  `str` turns a Lean literal into its UTF-8 bytes.
* A Go `float64` is an IEEE 754 binary64 value (`Float64`): a sign, a
  significand below `2^53` and a binary exponent, or an infinity, or NaN.  The
  four operations round to nearest, ties to even, with gradual underflow and
  overflow to infinity, and decimal literals are rounded the same way.
* A Go `error` is `Option GoError`, `none` being the `nil` error; a pointer
  result is an `Option` as well, `none` being the `nil` pointer.
* Everything the program obtains from outside (the HTTP transport, the JSON
  decoder, the configuration store, the formatting of floats) is a field of
  `Env`.  Functions return their Go result together with the list of `Event`s
  they caused: the entries of the repository's own functions and the requests
  handed to the HTTP client.  The diagnostic `fmt.Println` calls are not
  recorded.
* `Run.panic` stands for a run-time panic (a nil dereference).
-/

set_option autoImplicit false
set_option exponentiation.threshold 100000

/-- A Go string: a sequence of bytes. -/
abbrev GoString := List UInt8

/-- The bytes of a string literal. -/
def str (s : String) : GoString := s.toUTF8.data.toList

/-- A Go `error` value that is not nil.  `new` is an error carrying only a
message (`errors.New`, `fmt.Errorf` without `%w`, or an error of a library);
`wrap` is the result of `fmt.Errorf` with one `%w` operand. -/
inductive GoError where
  | new (msg : GoString)
  | wrap (msg : GoString) (err : GoError)
  deriving DecidableEq

/-- The method `Error()` of an error: its message. -/
def GoError.Error : GoError → GoString
  | .new msg => msg
  | .wrap msg _ => msg

/-- The method `Unwrap()`: the wrapped cause, if any. -/
def GoError.Unwrap : GoError → Option GoError
  | .new _ => none
  | .wrap _ err => some err

/-- Outcome of running a Go function: it returns, or it panics. -/
inductive Run (α : Type) where
  | ret (a : α)
  | panic
  deriving DecidableEq

namespace strings

/-- Scanning loop of `strings.ReplaceAll` for a non-empty `old`: `skip` counts
the bytes of a match that are still to be dropped. -/
def ReplaceAllAux (old new : GoString) : Nat → GoString → GoString
  | _, [] => []
  | skip + 1, _ :: cs => ReplaceAllAux old new skip cs
  | 0, c :: cs =>
    if old.isPrefixOf (c :: cs) then new ++ ReplaceAllAux old new (old.length - 1) cs
    else c :: ReplaceAllAux old new 0 cs

/-- The function `strings.ReplaceAll(s, old, new)` for a non-empty `old`: the
non-overlapping occurrences of `old`, found from left to right, are replaced
by `new`.  (The program only calls it with a one-byte `old`.) -/
def ReplaceAll (s old new : GoString) : GoString := ReplaceAllAux old new 0 s

end strings

namespace errors

/-- The function `errors.New(text)`. -/
def New (text : GoString) : GoError := .new text

end errors

namespace fmt

/-- The call `fmt.Errorf(pfx + "%w", err)`: the message is `pfx` followed by
the message of `err`, and `err` is kept as the wrapped cause. -/
def Errorf_w (pfx : GoString) (err : GoError) : GoError :=
  .wrap (pfx ++ err.Error) err

/-- The call `fmt.Errorf(pfx + "%d", n)`. -/
def Errorf_d (pfx : GoString) (n : Int) : GoError :=
  .new (pfx ++ str (toString n))

end fmt

/-! ## The type `float64` -/

/-- A Go `float64`.  `finite s m e` is the number `(-1)^s * m * 2^e`; the
values the operations produce have `m < 2^53` and `-1074 ≤ e ≤ 971`, with
`2^52 ≤ m` unless `e = -1074` (the subnormal numbers and the two zeros, whose
exponent is `-1074`). -/
inductive Float64 where
  | finite (negative : Bool) (mantissa : Nat) (exponent : Int)
  | inf (negative : Bool)
  | nan
  deriving DecidableEq

namespace Float64

/-- Binary search for the position of the leading bit of `n`. -/
def floorLog2Aux (n : Nat) : Nat → Nat → Nat
  | 0, acc => acc
  | i + 1, acc =>
    if n >>> (acc + 2 ^ i) ≠ 0 then floorLog2Aux n i (acc + 2 ^ i) else floorLog2Aux n i acc

/-- The position of the leading bit of `n`, for `0 < n < 2^65536`. -/
def floorLog2 (n : Nat) : Nat := floorLog2Aux n 16 0

/-- The fraction `num / den` times `2^e`. -/
def scale (num den : Nat) (e : Int) : Nat × Nat :=
  match e with
  | .ofNat k => (num <<< k, den)
  | .negSucc k => (num, den <<< (k + 1))

/-- The exponent of the leading bit of the fraction `num / den`: the `e` with
`2^e ≤ num / den < 2^(e+1)`. -/
def exponentOf (num den : Nat) : Int :=
  let e₀ : Int := (floorLog2 num : Int) - (floorLog2 den : Int)
  let s := scale num den (-e₀)
  if s.2 ≤ s.1 then e₀ else e₀ - 1

/-- The integer nearest to `num / den`, the even one of two at equal distance. -/
def roundQuotient (num den : Nat) : Nat :=
  let n := num / den
  let r := num % den
  if 2 * r < den then n else if den < 2 * r then n + 1
  else if n % 2 = 0 then n else n + 1

/-- Rounding of the fraction `num / den` (with `0 < den`), carrying the sign
`negative`, to the nearest `float64`, ties to the even significand: the
exponent of the leading bit fixes the quantum `2^q`, not below `2^-1074`; the
quotient by the quantum is rounded to an integer; a magnitude of `2^1024` or
more becomes an infinity. -/
def round (negative : Bool) (num den : Nat) : Float64 :=
  if num = 0 then .finite negative 0 (-1074)
  else
    let q : Int := max (exponentOf num den - 52) (-1074)
    let t := scale num den (-q)
    let n := roundQuotient t.1 t.2
    let m := if n = 2 ^ 53 then 2 ^ 52 else n
    let q := if n = 2 ^ 53 then q + 1 else q
    if 971 < q then .inf negative else .finite negative m q

/-- A decimal literal denotes the nearest `float64`. -/
instance : OfScientific Float64 where
  ofScientific mantissa exponentSign decimalExponent :=
    if exponentSign then round false mantissa (10 ^ decimalExponent)
    else round false (mantissa * 10 ^ decimalExponent) 1

instance (n : Nat) : OfNat Float64 n where
  ofNat := round false n 1

/-- Negation `-x`. -/
def neg : Float64 → Float64
  | .finite s m e => .finite (!s) m e
  | .inf s => .inf (!s)
  | .nan => .nan

/-- The product `x * y`. -/
def mul : Float64 → Float64 → Float64
  | .nan, _ => .nan
  | _, .nan => .nan
  | .inf s, .inf t => .inf (xor s t)
  | .inf s, .finite t m _ => if m = 0 then .nan else .inf (xor s t)
  | .finite s m _, .inf t => if m = 0 then .nan else .inf (xor s t)
  | .finite s m e, .finite t n f =>
    let p := scale (m * n) 1 (e + f)
    round (xor s t) p.1 p.2

/-- The quotient `x / y`. -/
def div : Float64 → Float64 → Float64
  | .nan, _ => .nan
  | _, .nan => .nan
  | .inf _, .inf _ => .nan
  | .inf s, .finite t _ _ => .inf (xor s t)
  | .finite s _ _, .inf t => .finite (xor s t) 0 (-1074)
  | .finite s m e, .finite t n f =>
    if n = 0 then (if m = 0 then .nan else .inf (xor s t))
    else
      let p := scale m n (e - f)
      round (xor s t) p.1 p.2

/-- The sum `x + y`. -/
def add : Float64 → Float64 → Float64
  | .nan, _ => .nan
  | _, .nan => .nan
  | .inf s, .inf t => if s = t then .inf s else .nan
  | .inf s, .finite _ _ _ => .inf s
  | .finite _ _ _, .inf t => .inf t
  | .finite s m e, .finite t n f =>
    let q := min e f
    let a : Int := ((m <<< (e - q).toNat : Nat) : Int)
    let b : Int := ((n <<< (f - q).toNat : Nat) : Int)
    let a : Int := if s then -a else a
    let b : Int := if t then -b else b
    let c := a + b
    if c = 0 then .finite (s && t) 0 (-1074)
    else
      let p := scale c.natAbs 1 q
      round (decide (c < 0)) p.1 p.2

/-- The difference `x - y`. -/
def sub (x y : Float64) : Float64 := add x (neg y)

instance : Neg Float64 := ⟨neg⟩
instance : Add Float64 := ⟨add⟩
instance : Sub Float64 := ⟨sub⟩
instance : Mul Float64 := ⟨mul⟩
instance : Div Float64 := ⟨div⟩

/-- Neither an infinity nor NaN. -/
def isFinite : Float64 → Bool
  | .finite _ _ _ => true
  | _ => false

/-- The rational number a finite `float64` stands for (0 for the others). -/
def toRat : Float64 → ℚ
  | .finite s m e => (if s then -1 else 1) * (m : ℚ) * (2 : ℚ) ^ e
  | _ => 0

/-- A finite `float64` in the form the operations produce: a significand
below `2^53` and an exponent from `-1074` to `971`. -/
def IsDouble : Float64 → Prop
  | .finite _ m e => m < 2 ^ 53 ∧ -1074 ≤ e ∧ e ≤ 971
  | _ => False

/-- The factor of a sign: `-1` for a negative number, `1` otherwise. -/
def signOf (s : Bool) : ℚ := if s then -1 else 1

/-- The value `r` is a finite `float64` within half a unit in the last place of
the rational `exact`, or within half the smallest subnormal number. -/
def Approx (r : Float64) (exact : ℚ) : Prop :=
  IsDouble r ∧ |toRat r - exact| ≤ |exact| / 2 ^ 53 + (2 : ℚ) ^ (-1075 : ℤ)

end Float64

/-! ## Package `utils` -/

namespace utils

def ConvertFahrenheitToCelsius (fahrenheit : Float64) : Float64 :=
  (fahrenheit - 32) * 5 / 9

def ConvertCelsiusToFahrenheit (celsius : Float64) : Float64 :=
  (celsius * 9 / 5) + 32

def ConvertCelsiusToKelvin (celsius : Float64) : Float64 :=
  celsius + 273.15

def ConvertKelvinToCelsius (kelvin : Float64) : Float64 :=
  kelvin - 273.15

/-- A Go `map[string]float64` built by a literal: its entries in order. -/
abbrev FloatMap := List (GoString × Float64)

/-- Indexing `m[key]`: the zero value when the key is absent. -/
def FloatMap.index (m : FloatMap) (key : GoString) : Float64 :=
  (m.lookup key).getD 0

def FormatTemperatures (celsius : Float64) : FloatMap :=
  [ (str "temp_C", celsius),
    (str "temp_F", ConvertCelsiusToFahrenheit celsius),
    (str "temp_K", ConvertCelsiusToKelvin celsius) ]

end utils

/-! ## The outside world -/

/-- What `http.Client.Do` hands back on success: the status code and the
outcome of `io.ReadAll` on the body. -/
structure Response where
  StatusCode : Int
  Body : Except GoError GoString

/-- A request header: the pairs put there with `Header.Set`. -/
abbrev Header := List (GoString × GoString)

/-- What a run causes, in order. -/
inductive Event where
  | FetchCEPData (cep : GoString)
  | FecthSearchFromWeatherAPI (city : GoString)
  | FetchWeatherData (lat lon : Float64)
  | GetTemperatureByCEP (cep : GoString)
  | Do (url : GoString) (header : Header)
  deriving DecidableEq

/-- True for the events that are requests to an external service. -/
def Event.isRequest : Event → Bool
  | .Do _ _ => true
  | _ => false

/-! ## Package `viacep` -/

namespace viacep

structure CEPResponse where
  CEP : GoString := []
  Logradouro : GoString := []
  Complemento : GoString := []
  Unidade : GoString := []
  Bairro : GoString := []
  Localidade : GoString := []
  UF : GoString := []
  Estado : GoString := []
  Regiao : GoString := []
  IBGE : GoString := []
  GIA : GoString := []
  DDD : GoString := []
  SIAFI : GoString := []
  deriving DecidableEq

end viacep

/-! ## Package `weather`: data -/

namespace weather

structure Search where
  Id : Nat := 0
  Name : GoString := []
  Region : GoString := []
  Country : GoString := []
  Lat : Float64 := 0
  Lon : Float64 := 0
  Url : GoString := []
  deriving DecidableEq

structure Location where
  Name : GoString := []
  Region : GoString := []
  Country : GoString := []
  Lat : Float64 := 0
  Lon : Float64 := 0
  TzID : GoString := []
  LocaltimeEpoch : Int := 0
  Localtime : GoString := []
  deriving DecidableEq

structure Condition where
  Text : GoString := []
  Icon : GoString := []
  Code : Int := 0
  deriving DecidableEq

structure Current where
  LastUpdatedEpoch : Int := 0
  LastUpdated : GoString := []
  TempC : Float64 := 0
  TempF : Float64 := 0
  IsDay : Int := 0
  Condition : Condition := {}
  WindMph : Float64 := 0
  WindKph : Float64 := 0
  WindDegree : Int := 0
  WindDir : GoString := []
  PressureMb : Float64 := 0
  PressureIn : Float64 := 0
  PrecipMm : Float64 := 0
  PrecipIn : Float64 := 0
  Humidity : Int := 0
  Cloud : Int := 0
  FeelslikeC : Float64 := 0
  FeelslikeF : Float64 := 0
  WindchillC : Float64 := 0
  WindchillF : Float64 := 0
  HeatindexC : Float64 := 0
  HeatindexF : Float64 := 0
  DewpointC : Float64 := 0
  DewpointF : Float64 := 0
  VisKm : Float64 := 0
  VisMiles : Float64 := 0
  Uv : Float64 := 0
  GustMph : Float64 := 0
  GustKph : Float64 := 0
  deriving DecidableEq

structure WeatherResponse where
  Location : Location := {}
  Current : Current := {}
  deriving DecidableEq

structure TemperatureResponse where
  Temp_C : Float64
  Temp_F : Float64
  Temp_K : Float64
  deriving DecidableEq

structure ErrorResponse where
  Error : GoString
  deriving DecidableEq

end weather

/-- The outside world of one run.

* `apiKey`: the value of `viper.GetString("WEATHER_API_KEY")`.
* `NewRequest url`: the error of `http.NewRequest("GET", url, nil)` (and of
  `http.NewRequestWithContext`), `none` when the request is built.
* `Do url header`: the outcome of `client.Do` for the GET request to `url`
  carrying `header`.
* `UnmarshalCEP body`: the state of the target struct after
  `json.Unmarshal(body, &result)` and the error it returned.
* `UnmarshalSearch`, `UnmarshalWeather`: the same for the two other targets,
  whose contents the program drops when decoding fails.
* `Sprintf_f x`: the text `fmt.Sprintf("%f", x)`. -/
structure Env where
  apiKey : GoString
  NewRequest : GoString → Option GoError
  Do : GoString → Header → Except GoError Response
  UnmarshalCEP : GoString → viacep.CEPResponse × Option GoError
  UnmarshalSearch : GoString → Except GoError (List weather.Search)
  UnmarshalWeather : GoString → Except GoError weather.WeatherResponse
  Sprintf_f : Float64 → GoString

namespace viacep

/-- The normalisation at the head of `FetchCEPData`: three successive
`strings.ReplaceAll` calls. -/
def normalize (cep : GoString) : GoString :=
  let cep := strings.ReplaceAll cep (str "-") (str "")
  let cep := strings.ReplaceAll cep (str ".") (str "")
  let cep := strings.ReplaceAll cep (str " ") (str "")
  cep

/-- The URL `fmt.Sprintf("https://viacep.com.br/ws/%s/json", cep)`. -/
def url (cep : GoString) : GoString :=
  str "https://viacep.com.br/ws/" ++ cep ++ str "/json"

def FetchCEPData (env : Env) (cep : GoString) :
    (Option CEPResponse × Option GoError) × List Event :=
  let entry := Event.FetchCEPData cep
  let cep := normalize cep
  if cep.length ≠ 8 then
    ((none, some (errors.New (str "invalid zipcode"))), [entry])
  else
    let result : CEPResponse := {}
    let url := url cep
    match env.NewRequest url with
    | some err => ((some result, some err), [entry])
    | none =>
      match env.Do url [] with
      | .error err => ((some result, some err), [entry, .Do url []])
      | .ok resp =>
        if resp.StatusCode ≠ 200 then
          ((some result, some (fmt.Errorf_d (str "status code: ") resp.StatusCode)),
            [entry, .Do url []])
        else
          match resp.Body with
          | .error err => ((some result, some err), [entry, .Do url []])
          | .ok body =>
            let decoded := env.UnmarshalCEP body
            ((some decoded.1, decoded.2), [entry, .Do url []])

end viacep

/-! ## Package `weather`: the two clients, the orchestrator and the handler -/

namespace weather

/-- The URL `fmt.Sprintf("https://api.weatherapi.com/v1/search.json?q=%s", city)`. -/
def searchURL (city : GoString) : GoString :=
  str "https://api.weatherapi.com/v1/search.json?q=" ++ city

def FecthSearchFromWeatherAPI (env : Env) (city : GoString) :
    (Option Search × Option GoError) × List Event :=
  let entry := Event.FecthSearchFromWeatherAPI city
  let city := strings.ReplaceAll city (str " ") (str "+")
  let url := searchURL city
  match env.NewRequest url with
  | some err => ((none, some err), [entry])
  | none =>
    let apiKey := env.apiKey
    if apiKey = str "" then
      ((none, some (errors.New (str "WEATHER_API_KEY is not set"))), [entry])
    else
      let header : Header := [(str "key", apiKey)]
      match env.Do url header with
      | .error err => ((none, some err), [entry, .Do url header])
      | .ok response =>
        match response.Body with
        | .error err => ((none, some err), [entry, .Do url header])
        | .ok body =>
          match env.UnmarshalSearch body with
          | .error err => ((none, some err), [entry, .Do url header])
          | .ok search =>
            match search with
            | [] =>
              ((none, some (errors.New (str "no cities found for the given search term"))),
                [entry, .Do url header])
            | first :: _ => ((some first, none), [entry, .Do url header])

/-- The URL
`fmt.Sprintf("https://api.weatherapi.com/v1/current.json?q=%f,%f", lat, lon)`. -/
def currentURL (env : Env) (lat lon : Float64) : GoString :=
  str "https://api.weatherapi.com/v1/current.json?q=" ++ env.Sprintf_f lat ++ str ","
    ++ env.Sprintf_f lon

def FetchWeatherData (env : Env) (lat lon : Float64) :
    (Option WeatherResponse × Option GoError) × List Event :=
  let entry := Event.FetchWeatherData lat lon
  let apiKey := env.apiKey
  if apiKey = str "" then
    ((none, some (errors.New (str "WEATHER_API_KEY is not set"))), [entry])
  else
    let url := currentURL env lat lon
    match env.NewRequest url with
    | some err => ((none, some err), [entry])
    | none =>
      let header : Header := [(str "key", apiKey)]
      match env.Do url header with
      | .error err => ((none, some err), [entry, .Do url header])
      | .ok response =>
        match response.Body with
        | .error err => ((none, some err), [entry, .Do url header])
        | .ok body =>
          match env.UnmarshalWeather body with
          | .error err => ((none, some err), [entry, .Do url header])
          | .ok weatherResponse => ((some weatherResponse, none), [entry, .Do url header])

def GetTemperatureByCEP (env : Env) (cep : GoString) :
    Run (Option TemperatureResponse × Option GoError) × List Event :=
  let entry := Event.GetTemperatureByCEP cep
  match viacep.FetchCEPData env cep with
  | ((_, some err), t₁) =>
    (.ret (none, some (fmt.Errorf_w (str "can not find zipcode: ") err)), entry :: t₁)
  | ((none, none), t₁) => (.panic, entry :: t₁)
  | ((some cepData, none), t₁) =>
    match FecthSearchFromWeatherAPI env cepData.Localidade with
    | ((_, some err), t₂) =>
      (.ret (none, some (fmt.Errorf_w (str "can not find city: ") err)), entry :: t₁ ++ t₂)
    | ((none, none), t₂) => (.panic, entry :: t₁ ++ t₂)
    | ((some searchData, none), t₂) =>
      match FetchWeatherData env searchData.Lat searchData.Lon with
      | ((_, some err), t₃) =>
        (.ret (none, some (fmt.Errorf_w (str "can not find zipcode: ") err)),
          entry :: t₁ ++ t₂ ++ t₃)
      | ((none, none), t₃) => (.panic, entry :: t₁ ++ t₂ ++ t₃)
      | ((some weatherData, none), t₃) =>
        let formattedTemp := utils.FormatTemperatures weatherData.Current.TempC
        let response : TemperatureResponse :=
          { Temp_C := formattedTemp.index (str "temp_C"),
            Temp_F := formattedTemp.index (str "temp_F"),
            Temp_K := formattedTemp.index (str "temp_K") }
        (.ret (some response, none), entry :: t₁ ++ t₂ ++ t₃)

/-! ### The HTTP exchange -/

/-- A scalar of a JSON object. -/
inductive JSONField where
  | string (s : GoString)
  | number (x : Float64)
  deriving DecidableEq

/-- A JSON text as the encoder produces it here: `null`, or a flat object
given by its members in order. -/
inductive JSON where
  | null
  | object (members : List (GoString × JSONField))
  deriving DecidableEq

/-- Whether `json.Marshal` accepts the scalar: a number must be finite. -/
def JSONField.encodable : JSONField → Bool
  | .string _ => true
  | .number x => x.isFinite

/-- Whether `json.Marshal` accepts the value: every number in it is finite. -/
def JSON.encodable : JSON → Bool
  | .null => true
  | .object members => members.all (fun member => member.2.encodable)

/-- The JSON object of an `ErrorResponse`, after its struct tag. -/
def ErrorResponse.toJSON (v : ErrorResponse) : JSON :=
  .object [(str "error", .string v.Error)]

/-- The JSON object of a `TemperatureResponse`, after its struct tags. -/
def TemperatureResponse.toJSON (v : TemperatureResponse) : JSON :=
  .object [(str "temp_C", .number v.Temp_C), (str "temp_F", .number v.Temp_F),
    (str "temp_K", .number v.Temp_K)]

/-- The state of an `http.ResponseWriter`.

* `header`: the map returned by `Header()`.
* `wroteHeader`, `Code`, `sentHeader`: whether the status line has been
  written, with which status, and the header that went out with it.
* `writeHeaderCalls`: how many times `WriteHeader` was called.
* `Body`: the payloads written so far, one entry for each `Write`. -/
structure ResponseWriter where
  header : Header := []
  wroteHeader : Bool := false
  Code : Int := 200
  sentHeader : Header := []
  writeHeaderCalls : Nat := 0
  Body : List JSON := []
  deriving DecidableEq

namespace ResponseWriter

/-- The call `w.Header().Set(key, value)`. -/
def HeaderSet (w : ResponseWriter) (key value : GoString) : ResponseWriter :=
  { w with header := (key, value) :: w.header.filter (fun kv => kv.1 ≠ key) }

/-- The call `w.WriteHeader(statusCode)`: only the first call takes effect. -/
def WriteHeader (w : ResponseWriter) (statusCode : Int) : ResponseWriter :=
  if w.wroteHeader then { w with writeHeaderCalls := w.writeHeaderCalls + 1 }
  else
    { w with
      wroteHeader := true, Code := statusCode, sentHeader := w.header,
      writeHeaderCalls := w.writeHeaderCalls + 1 }

/-- The call `w.Write(payload)`: a status 200 goes out first if none did. -/
def Write (w : ResponseWriter) (payload : JSON) : ResponseWriter :=
  let w := if w.wroteHeader then w
    else { w with wroteHeader := true, Code := 200, sentHeader := w.header }
  { w with Body := w.Body ++ [payload] }

/-- The call `json.NewEncoder(w).Encode(v)`, `v` given by its JSON value, with
the returned error dropped as the handler does: one `Write` of the encoding
when `v` can be encoded, and nothing written when it cannot (an infinite or
NaN number). -/
def Encode (w : ResponseWriter) (v : JSON) : ResponseWriter :=
  if v.encodable then w.Write v else w

/-- The writer the server hands to a handler: nothing set, nothing written. -/
def fresh : ResponseWriter := {}

end ResponseWriter

/-- The parsed query `r.URL.Query()`: a `url.Values`. -/
abbrev Values := List (GoString × List GoString)

/-- The method `Values.Get(key)`: the first value of `key`, or `""`. -/
def Values.Get (v : Values) (key : GoString) : GoString :=
  match v.lookup key with
  | some (first :: _) => first
  | _ => str ""

/-- The part of an `http.Request` the handler reads. -/
structure Request where
  Method : GoString
  Query : Values

def TemperatureHandler (env : Env) (w : ResponseWriter) (r : Request) :
    Run ResponseWriter × List Event :=
  let w := w.HeaderSet (str "Content-Type") (str "application/json")
  if r.Method ≠ str "GET" then
    let w := w.WriteHeader 405
    let w := w.Encode (ErrorResponse.toJSON { Error := str "method not allowed" })
    (.ret w, [])
  else
    let cep := r.Query.Get (str "cep")
    if cep = str "" then
      let w := w.WriteHeader 400
      let w := w.Encode (ErrorResponse.toJSON { Error := str "invalid zipcode" })
      (.ret w, [])
    else
      match GetTemperatureByCEP env cep with
      | (.panic, t) => (.panic, t)
      | (.ret (_, some err), t) =>
        let w := w.WriteHeader 500
        let w := w.Encode (ErrorResponse.toJSON { Error := err.Error })
        (.ret w, t)
      | (.ret (none, none), t) =>
        -- a nil pointer is encoded as the JSON value null
        let w := w.WriteHeader 200
        let w := w.Encode .null
        (.ret w, t)
      | (.ret (some response, none), t) =>
        let w := w.WriteHeader 200
        let w := w.Encode (TemperatureResponse.toJSON response)
        (.ret w, t)

end weather

/-! ## Specification-level notions -/

/-- The three separator bytes: `-`, `.` and the space. -/
def isSeparator (b : UInt8) : Bool := b = 45 || b = 46 || b = 32

/-- Removal of the separators in a single pass, as the specification words
the normalisation: every `-`, `.` and space is dropped, every other byte is
kept in its place. -/
def removeSeparators (s : GoString) : GoString := s.filter (fun b => !isSeparator b)

/-- A decimal digit, `0` to `9`. -/
def isDigit (b : UInt8) : Bool := decide (48 ≤ b.toNat) && decide (b.toNat ≤ 57)

/-- The relation `Inserted d s`: `s` is `d` with separator bytes inserted, any
number of them at any positions. -/
inductive Inserted : GoString → GoString → Prop where
  | nil : Inserted [] []
  | keep (b : UInt8) {d s : GoString} : Inserted d s → Inserted (b :: d) (b :: s)
  | sep (b : UInt8) {d s : GoString} : isSeparator b = true → Inserted d s → Inserted d (b :: s)

/-- The error of the format validation of `FetchCEPData`. -/
def invalidZipcode : GoError := errors.New (str "invalid zipcode")

/-- `FetchCEPData` rejects `cep` at its format validation: the nil result with
the error `invalid zipcode` (every later exit returns a non-nil result). -/
def viacep.Rejected (env : Env) (cep : GoString) : Prop :=
  (viacep.FetchCEPData env cep).1 = (none, some invalidZipcode)

/-- No error that `env` hands to `FetchCEPData` reads `msg`. -/
def Env.neverSays (env : Env) (msg : GoString) : Prop :=
  (∀ url err, env.NewRequest url = some err → err.Error ≠ msg) ∧
  (∀ url header err, env.Do url header = .error err → err.Error ≠ msg) ∧
  (∀ url header resp err, env.Do url header = .ok resp → resp.Body = .error err →
    err.Error ≠ msg) ∧
  (∀ body err, (env.UnmarshalCEP body).2 = some err → err.Error ≠ msg)

/-- True for the entry of the place search. -/
def Event.isSearchCall : Event → Bool
  | .FecthSearchFromWeatherAPI _ => true
  | _ => false

/-- True for the entry of the weather fetch. -/
def Event.isWeatherCall : Event → Bool
  | .FetchWeatherData _ _ => true
  | _ => false

/-! ## Sample worlds -/

/-- A world without network and without credential: every request fails. -/
def Env.offline : Env where
  apiKey := str ""
  NewRequest := fun _ => none
  Do := fun _ _ => .error (errors.New (str "connection refused"))
  UnmarshalCEP := fun _ => ({}, some (errors.New (str "unexpected end of JSON input")))
  UnmarshalSearch := fun _ => .error (errors.New (str "unexpected end of JSON input"))
  UnmarshalWeather := fun _ => .error (errors.New (str "unexpected end of JSON input"))
  Sprintf_f := fun _ => str "0.000000"

/-- A world where the three services answer: the postal service names the city
`Bom Despacho`, the search returns two candidates, the weather is 25 °C
(and the upstream Fahrenheit field reads 77). -/
def Env.healthy : Env where
  apiKey := str "secret"
  NewRequest := fun _ => none
  Do := fun _ _ => .ok { StatusCode := 200, Body := .ok (str "{}") }
  UnmarshalCEP := fun _ =>
    ({ CEP := str "35620-000", Localidade := str "Bom Despacho", UF := str "MG" }, none)
  UnmarshalSearch := fun _ =>
    .ok [ { Id := 1, Name := str "Bom Despacho", Lat := -19.73, Lon := -45.25 },
          { Id := 2, Name := str "Bom Jesus", Lat := -9.07, Lon := -44.36 } ]
  UnmarshalWeather := fun _ => .ok { Current := { TempC := 25, TempF := 77 } }
  Sprintf_f := fun _ => str "0.000000"

/-- The healthy world, except that the search service cannot be reached. -/
def Env.searchDown : Env :=
  { Env.healthy with
    Do := fun url _ =>
      if (str "https://api.weatherapi.com/v1/search.json").isPrefixOf url then
        .error (errors.New (str "connection refused"))
      else .ok { StatusCode := 200, Body := .ok (str "{}") } }

/-- The healthy world, except that the weather service cannot be reached. -/
def Env.weatherDown : Env :=
  { Env.healthy with
    Do := fun url _ =>
      if (str "https://api.weatherapi.com/v1/current.json").isPrefixOf url then
        .error (errors.New (str "connection refused"))
      else .ok { StatusCode := 200, Body := .ok (str "{}") } }

/-- A GET request for `/temperature?cep=<cep>`. -/
def getRequest (cep : GoString) : weather.Request :=
  { Method := str "GET", Query := [(str "cep", [cep])] }

/-- The world `env` with the Fahrenheit field of every decoded weather
snapshot replaced by `f`. -/
def Env.setUpstreamFahrenheit (env : Env) (f : Float64) : Env :=
  { env with
    UnmarshalWeather := fun body =>
      match env.UnmarshalWeather body with
      | .ok w => .ok { w with Current := { w.Current with TempF := f } }
      | .error err => .error err }

/-- A control byte, which `net/url` refuses anywhere in a URL. -/
def isControl (b : UInt8) : Bool := decide (b.toNat < 32) || b = 127

/-- A world without credential in which `http.NewRequest` refuses, as
`net/url` does, a URL that holds a control byte. -/
def Env.noCredential : Env :=
  { Env.offline with
    NewRequest := fun url =>
      if url.any isControl then
        some (errors.New (str "net/url: invalid control character in URL"))
      else none }

/-- The body the weather service sends with a 401: a JSON object whose only
member is `error`. -/
def errorDocument : GoString :=
  str "\x7b\"error\":\x7b\"code\":2006,\"message\":\"API key provided is invalid\"\x7d\x7d"

/-- The healthy world, except that the weather service answers 401 with the
error document; decoding that document into a `WeatherResponse` succeeds and
fills no field, its only member being unknown to the struct. -/
def Env.weatherRejected : Env :=
  { Env.healthy with
    Do := fun url _ =>
      if (str "https://api.weatherapi.com/v1/current.json").isPrefixOf url then
        .ok { StatusCode := 401, Body := .ok errorDocument }
      else .ok { StatusCode := 200, Body := .ok (str "{}") }
    UnmarshalWeather := fun body =>
      if body = errorDocument then .ok {}
      else .ok { Current := { TempC := 25, TempF := 77 } } }

/-- The healthy world, except that the postal service answers 404. -/
def Env.postalRejected : Env :=
  { Env.healthy with
    Do := fun url _ =>
      if (str "https://viacep.com.br/ws/").isPrefixOf url then
        .ok { StatusCode := 404, Body := .ok (str "{}") }
      else .ok { StatusCode := 200, Body := .ok (str "{}") } }

/-- The byte that stands for `b` in the search query: `+` for a space, `b`
itself otherwise. -/
def plusForSpace (b : UInt8) : UInt8 := if b = 32 then 43 else b

/-- The healthy world, except that the weather service reports a current
temperature of `1e308` °C, a finite `float64`. -/
def Env.overflow : Env :=
  { Env.healthy with
    UnmarshalWeather := fun _ => .ok { Current := { TempC := 1e308 } } }

/-! ## Auxiliary facts -/

open weather

theorem str_GET_ne_POST : str "POST" ≠ str "GET" := by decide

theorem Values_Get_of_lookup_none (v : Values) (key : GoString) (h : v.lookup key = none) :
    v.Get key = str "" := by
  simp [Values.Get, h]

/-- Every exit of `FetchCEPData` other than the format validation returns a
non-nil result. -/
theorem FetchCEPData_result (env : Env) (cep : GoString) :
    (viacep.FetchCEPData env cep).1 = (none, some invalidZipcode) ∨
      ∃ result err, (viacep.FetchCEPData env cep).1 = (some result, err) := by
  unfold viacep.FetchCEPData
  simp only []
  split
  · exact Or.inl rfl
  · right
    split
    · exact ⟨_, _, rfl⟩
    · split
      · exact ⟨_, _, rfl⟩
      · split
        · exact ⟨_, _, rfl⟩
        · split
          · exact ⟨_, _, rfl⟩
          · exact ⟨_, _, rfl⟩

/-- The search client returns a candidate with a nil error, or nil with an
error. -/
theorem FecthSearch_result (env : Env) (city : GoString) :
    (∃ found, (FecthSearchFromWeatherAPI env city).1 = (some found, none)) ∨
      ∃ err, (FecthSearchFromWeatherAPI env city).1 = (none, some err) := by
  unfold FecthSearchFromWeatherAPI
  simp only []
  split
  · exact Or.inr ⟨_, rfl⟩
  · split
    · exact Or.inr ⟨_, rfl⟩
    · split
      · exact Or.inr ⟨_, rfl⟩
      · split
        · exact Or.inr ⟨_, rfl⟩
        · split
          · exact Or.inr ⟨_, rfl⟩
          · split
            · exact Or.inr ⟨_, rfl⟩
            · exact Or.inl ⟨_, rfl⟩

/-- The weather client returns a snapshot with a nil error, or nil with an
error. -/
theorem FetchWeatherData_result (env : Env) (lat lon : Float64) :
    (∃ snapshot, (FetchWeatherData env lat lon).1 = (some snapshot, none)) ∨
      ∃ err, (FetchWeatherData env lat lon).1 = (none, some err) := by
  unfold FetchWeatherData
  simp only []
  split
  · exact Or.inr ⟨_, rfl⟩
  · split
    · exact Or.inr ⟨_, rfl⟩
    · split
      · exact Or.inr ⟨_, rfl⟩
      · split
        · exact Or.inr ⟨_, rfl⟩
        · split
          · exact Or.inr ⟨_, rfl⟩
          · exact Or.inl ⟨_, rfl⟩

/-- The four ways through `GetTemperatureByCEP`: the postal lookup fails, the
place search fails, the weather fetch fails, or all three stages succeed. -/
theorem GetTemperatureByCEP_cases (env : Env) (cep : GoString) :
    (∃ result err t₁,
      viacep.FetchCEPData env cep = ((result, some err), t₁) ∧
      GetTemperatureByCEP env cep =
        (.ret (none, some (fmt.Errorf_w (str "can not find zipcode: ") err)),
          Event.GetTemperatureByCEP cep :: t₁)) ∨
    (∃ cepData t₁ err t₂,
      viacep.FetchCEPData env cep = ((some cepData, none), t₁) ∧
      FecthSearchFromWeatherAPI env cepData.Localidade = ((none, some err), t₂) ∧
      GetTemperatureByCEP env cep =
        (.ret (none, some (fmt.Errorf_w (str "can not find city: ") err)),
          Event.GetTemperatureByCEP cep :: t₁ ++ t₂)) ∨
    (∃ cepData t₁ searchData t₂ err t₃,
      viacep.FetchCEPData env cep = ((some cepData, none), t₁) ∧
      FecthSearchFromWeatherAPI env cepData.Localidade = ((some searchData, none), t₂) ∧
      FetchWeatherData env searchData.Lat searchData.Lon = ((none, some err), t₃) ∧
      GetTemperatureByCEP env cep =
        (.ret (none, some (fmt.Errorf_w (str "can not find zipcode: ") err)),
          Event.GetTemperatureByCEP cep :: t₁ ++ t₂ ++ t₃)) ∨
    (∃ cepData t₁ searchData t₂ weatherData t₃,
      viacep.FetchCEPData env cep = ((some cepData, none), t₁) ∧
      FecthSearchFromWeatherAPI env cepData.Localidade = ((some searchData, none), t₂) ∧
      FetchWeatherData env searchData.Lat searchData.Lon = ((some weatherData, none), t₃) ∧
      GetTemperatureByCEP env cep =
        (.ret (some
            { Temp_C := (utils.FormatTemperatures weatherData.Current.TempC).index (str "temp_C"),
              Temp_F := (utils.FormatTemperatures weatherData.Current.TempC).index (str "temp_F"),
              Temp_K := (utils.FormatTemperatures weatherData.Current.TempC).index (str "temp_K") },
            none),
          Event.GetTemperatureByCEP cep :: t₁ ++ t₂ ++ t₃)) := by
  have h₁ := FetchCEPData_result env cep
  rcases hx₁ : viacep.FetchCEPData env cep with ⟨⟨r₁, e₁⟩, t₁⟩
  rw [hx₁] at h₁
  unfold GetTemperatureByCEP
  rw [hx₁]
  cases e₁ with
  | some err => cases r₁ <;> exact Or.inl ⟨_, err, t₁, rfl, rfl⟩
  | none =>
    cases r₁ with
    | none =>
      rcases h₁ with h | ⟨_, _, h⟩ <;> simp at h
    | some cepData =>
      right
      have h₂ := FecthSearch_result env cepData.Localidade
      rcases hx₂ : FecthSearchFromWeatherAPI env cepData.Localidade with ⟨⟨r₂, e₂⟩, t₂⟩
      rw [hx₂] at h₂
      simp only []
      rw [hx₂]
      rcases h₂ with ⟨found, h⟩ | ⟨err, h⟩
      · right
        simp only [Prod.mk.injEq] at h
        obtain ⟨rfl, rfl⟩ := h
        have h₃ := FetchWeatherData_result env found.Lat found.Lon
        rcases hx₃ : FetchWeatherData env found.Lat found.Lon with ⟨⟨r₃, e₃⟩, t₃⟩
        rw [hx₃] at h₃
        simp only []
        rw [hx₃]
        rcases h₃ with ⟨snapshot, h⟩ | ⟨err, h⟩
        · right
          simp only [Prod.mk.injEq] at h
          obtain ⟨rfl, rfl⟩ := h
          exact ⟨cepData, t₁, found, t₂, snapshot, t₃, rfl, hx₂, hx₃, rfl⟩
        · left
          simp only [Prod.mk.injEq] at h
          obtain ⟨rfl, rfl⟩ := h
          exact ⟨cepData, t₁, found, t₂, err, t₃, rfl, hx₂, hx₃, rfl⟩
      · left
        simp only [Prod.mk.injEq] at h
        obtain ⟨rfl, rfl⟩ := h
        exact ⟨cepData, t₁, err, t₂, rfl, hx₂, rfl⟩

/-- `GetTemperatureByCEP` returns: a reading with a nil error, or a nil reading
with an error. -/
theorem GetTemperatureByCEP_result (env : Env) (cep : GoString) :
    (∃ response, (GetTemperatureByCEP env cep).1 = .ret (some response, none)) ∨
      ∃ err, (GetTemperatureByCEP env cep).1 = .ret (none, some err) := by
  rcases GetTemperatureByCEP_cases env cep with
    ⟨_, _, _, _, h⟩ | ⟨_, _, _, _, _, _, h⟩ | ⟨_, _, _, _, _, _, _, _, _, h⟩ |
    ⟨_, _, _, _, _, _, _, _, _, h⟩
  · exact Or.inr ⟨_, by rw [h]⟩
  · exact Or.inr ⟨_, by rw [h]⟩
  · exact Or.inr ⟨_, by rw [h]⟩
  · exact Or.inl ⟨_, by rw [h]⟩

/-- The handler on a GET request with a non-empty `cep`, when the orchestrator
returns a reading. -/
theorem TemperatureHandler_success (env : Env) (r : Request) (hm : r.Method = str "GET")
    (hc : r.Query.Get (str "cep") ≠ str "") (response : TemperatureResponse)
    (h : (GetTemperatureByCEP env (r.Query.Get (str "cep"))).1 = .ret (some response, none)) :
    TemperatureHandler env .fresh r =
      (.ret
        { header := [(str "Content-Type", str "application/json")],
          wroteHeader := true, Code := 200,
          sentHeader := [(str "Content-Type", str "application/json")],
          writeHeaderCalls := 1,
          Body := if (TemperatureResponse.toJSON response).encodable then
            [TemperatureResponse.toJSON response] else [] },
        (GetTemperatureByCEP env (r.Query.Get (str "cep"))).2) := by
  rcases hx : GetTemperatureByCEP env (r.Query.Get (str "cep")) with ⟨res, t⟩
  rw [hx] at h
  simp only at h
  subst h
  unfold TemperatureHandler
  simp only [hm, ne_eq, not_true_eq_false, if_false, hc, hx]
  cases henc : (TemperatureResponse.toJSON response).encodable <;>
    simp [ResponseWriter.Encode, ResponseWriter.Write, ResponseWriter.WriteHeader,
      ResponseWriter.HeaderSet, ResponseWriter.fresh, henc]

/-- The handler on a GET request with a non-empty `cep`, when the orchestrator
returns an error. -/
theorem TemperatureHandler_failure (env : Env) (r : Request) (hm : r.Method = str "GET")
    (hc : r.Query.Get (str "cep") ≠ str "") (res : Option TemperatureResponse) (err : GoError)
    (h : (GetTemperatureByCEP env (r.Query.Get (str "cep"))).1 = .ret (res, some err)) :
    TemperatureHandler env .fresh r =
      (.ret
        { header := [(str "Content-Type", str "application/json")],
          wroteHeader := true, Code := 500,
          sentHeader := [(str "Content-Type", str "application/json")],
          writeHeaderCalls := 1,
          Body := [ErrorResponse.toJSON { Error := err.Error }] },
        (GetTemperatureByCEP env (r.Query.Get (str "cep"))).2) := by
  rcases hx : GetTemperatureByCEP env (r.Query.Get (str "cep")) with ⟨out, t⟩
  rw [hx] at h
  simp only at h
  subst h
  unfold TemperatureHandler
  simp only [hm, ne_eq, not_true_eq_false, if_false, hc, hx]
  cases res <;> rfl

/-- The handler on a request whose method is not GET. -/
theorem TemperatureHandler_method (env : Env) (r : Request) (hm : r.Method ≠ str "GET") :
    TemperatureHandler env .fresh r =
      (.ret
        { header := [(str "Content-Type", str "application/json")],
          wroteHeader := true, Code := 405,
          sentHeader := [(str "Content-Type", str "application/json")],
          writeHeaderCalls := 1,
          Body := [ErrorResponse.toJSON { Error := str "method not allowed" }] }, []) := by
  unfold TemperatureHandler
  simp only [hm, ne_eq, not_false_eq_true, if_true]
  rfl

/-- The handler on a GET request whose `cep` is empty. -/
theorem TemperatureHandler_missing (env : Env) (r : Request) (hm : r.Method = str "GET")
    (hc : r.Query.Get (str "cep") = str "") :
    TemperatureHandler env .fresh r =
      (.ret
        { header := [(str "Content-Type", str "application/json")],
          wroteHeader := true, Code := 400,
          sentHeader := [(str "Content-Type", str "application/json")],
          writeHeaderCalls := 1,
          Body := [ErrorResponse.toJSON { Error := str "invalid zipcode" }] }, []) := by
  unfold TemperatureHandler
  simp only [hm, ne_eq, not_true_eq_false, if_false, hc, if_true]
  rfl

/-! ## The request handler -/

/-- C1: for every request whose method is not GET, whatever its query,
`TemperatureHandler` answers with status 405 and the JSON body
`{"error":"method not allowed"}`, and the run causes no event at all: neither
`GetTemperatureByCEP` nor any collaborator is called. -/
theorem C1_method_not_allowed (env : Env) (r : Request) (hm : r.Method ≠ str "GET") :
    ∃ w, TemperatureHandler env .fresh r = (.ret w, []) ∧
      w.wroteHeader = true ∧ w.Code = 405 ∧
      w.Body = [.object [(str "error", .string (str "method not allowed"))]] := by
  exact ⟨_, TemperatureHandler_method env r hm, rfl, rfl, rfl⟩

/-- C1 at a POST request for `/temperature?cep=35620-000` and at a PUT request
without any query. -/
theorem C1_method_not_allowed_witness :
    (str "POST" ≠ str "GET" ∧
      ∃ w, TemperatureHandler Env.healthy .fresh
          { Method := str "POST", Query := [(str "cep", [str "35620-000"])] } = (.ret w, []) ∧
        w.wroteHeader = true ∧ w.Code = 405 ∧
        w.Body = [.object [(str "error", .string (str "method not allowed"))]]) ∧
    (str "PUT" ≠ str "GET" ∧
      ∃ w, TemperatureHandler Env.healthy .fresh { Method := str "PUT", Query := [] } =
          (.ret w, []) ∧
        w.wroteHeader = true ∧ w.Code = 405 ∧
        w.Body = [.object [(str "error", .string (str "method not allowed"))]]) :=
  ⟨⟨by decide, C1_method_not_allowed Env.healthy _ (by decide)⟩,
    ⟨by decide, C1_method_not_allowed Env.healthy _ (by decide)⟩⟩

/-- C2: for every GET request whose query has no `cep` parameter, or whose
`cep` value is empty, `TemperatureHandler` answers with status 400 and the
JSON body `{"error":"invalid zipcode"}`, and the run causes no event:
`GetTemperatureByCEP` is not called. -/
theorem C2_missing_cep (env : Env) (r : Request) (hm : r.Method = str "GET")
    (hq : r.Query.lookup (str "cep") = none ∨ r.Query.Get (str "cep") = str "") :
    ∃ w, TemperatureHandler env .fresh r = (.ret w, []) ∧
      w.wroteHeader = true ∧ w.Code = 400 ∧
      w.Body = [.object [(str "error", .string (str "invalid zipcode"))]] := by
  have hc : r.Query.Get (str "cep") = str "" := by
    rcases hq with h | h
    · exact Values_Get_of_lookup_none _ _ h
    · exact h
  exact ⟨_, TemperatureHandler_missing env r hm hc, rfl, rfl, rfl⟩

/-- C2 at `GET /temperature` and at `GET /temperature?cep=`. -/
theorem C2_missing_cep_witness :
    (str "GET" = str "GET" ∧
      (([] : Values).lookup (str "cep") = none ∨ Values.Get [] (str "cep") = str "") ∧
      ∃ w, TemperatureHandler Env.healthy .fresh { Method := str "GET", Query := [] } =
          (.ret w, []) ∧
        w.wroteHeader = true ∧ w.Code = 400 ∧
        w.Body = [.object [(str "error", .string (str "invalid zipcode"))]]) ∧
    (∃ w, TemperatureHandler Env.healthy .fresh (getRequest (str "")) = (.ret w, []) ∧
        w.wroteHeader = true ∧ w.Code = 400 ∧
        w.Body = [.object [(str "error", .string (str "invalid zipcode"))]]) :=
  ⟨⟨rfl, Or.inl rfl,
      C2_missing_cep Env.healthy { Method := str "GET", Query := [] } rfl (Or.inl rfl)⟩,
    C2_missing_cep Env.healthy (getRequest (str "")) rfl (Or.inr (by decide))⟩

/-- The encoder accepts a reading exactly when its three fields are finite. -/
theorem TemperatureResponse_encodable (response : TemperatureResponse) :
    (TemperatureResponse.toJSON response).encodable =
      (response.Temp_C.isFinite && response.Temp_F.isFinite && response.Temp_K.isFinite) := by
  simp [TemperatureResponse.toJSON, JSON.encodable, JSONField.encodable, Bool.and_assoc]

/-- The handler on a GET request with a non-empty `cep`: it runs
`GetTemperatureByCEP(cep)` and answers 200 exactly when the orchestrator
returns a nil error and 500 exactly when it returns an error.  With an error
the body is `{"error": m}`, `m` the message of the error.  With a reading
whose three fields are finite the body is the three fields; with a reading
that has an infinite or NaN field nothing is written after the status. -/
theorem TemperatureHandler_execute (env : Env) (r : Request) (hm : r.Method = str "GET")
    (hc : r.Query.Get (str "cep") ≠ str "") :
    ∃ w, TemperatureHandler env .fresh r =
        (.ret w, (GetTemperatureByCEP env (r.Query.Get (str "cep"))).2) ∧
      (w.Code = 200 ∨ w.Code = 500) ∧
      (w.Code = 200 ↔
        ∃ res, (GetTemperatureByCEP env (r.Query.Get (str "cep"))).1 = .ret (res, none)) ∧
      (w.Code = 500 ↔
        ∃ res err,
          (GetTemperatureByCEP env (r.Query.Get (str "cep"))).1 = .ret (res, some err)) ∧
      (∀ res, (GetTemperatureByCEP env (r.Query.Get (str "cep"))).1 = .ret (res, none) →
        ∃ response, res = some response ∧
          ((response.Temp_C.isFinite && response.Temp_F.isFinite &&
              response.Temp_K.isFinite) = true →
            w.Body = [.object [(str "temp_C", .number response.Temp_C),
              (str "temp_F", .number response.Temp_F),
              (str "temp_K", .number response.Temp_K)]]) ∧
          ((response.Temp_C.isFinite && response.Temp_F.isFinite &&
              response.Temp_K.isFinite) = false → w.Body = [])) ∧
      (∀ res err,
        (GetTemperatureByCEP env (r.Query.Get (str "cep"))).1 = .ret (res, some err) →
          w.Body = [.object [(str "error", .string err.Error)]]) := by
  rcases GetTemperatureByCEP_result env (r.Query.Get (str "cep")) with ⟨response, h⟩ | ⟨err, h⟩
  · refine ⟨_, TemperatureHandler_success env r hm hc response h, Or.inl rfl, ?_, ?_, ?_, ?_⟩
    · exact ⟨fun _ => ⟨_, h⟩, fun _ => rfl⟩
    · constructor
      · intro h500
        exact absurd (show (200 : Int) = 500 from h500) (by decide)
      · rintro ⟨res, e, he⟩
        rw [h] at he
        simp at he
    · intro res hres
      rw [h] at hres
      simp only [Run.ret.injEq, Prod.mk.injEq, and_true] at hres
      refine ⟨response, hres.symm, ?_, ?_⟩
      · intro hfin
        rw [← TemperatureResponse_encodable] at hfin
        simp only [hfin, if_true]
        rfl
      · intro hfin
        rw [← TemperatureResponse_encodable] at hfin
        simp only [hfin]
        rfl
    · intro res e he
      rw [h] at he
      simp at he
  · refine ⟨_, TemperatureHandler_failure env r hm hc none err h, Or.inr rfl, ?_, ?_, ?_, ?_⟩
    · constructor
      · intro h200
        exact absurd (show (500 : Int) = 200 from h200) (by decide)
      · rintro ⟨res, hres⟩
        rw [h] at hres
        simp at hres
    · exact ⟨fun _ => ⟨_, _, h⟩, fun _ => rfl⟩
    · intro res hres
      rw [h] at hres
      simp at hres
    · intro res e he
      rw [h] at he
      simp only [Run.ret.injEq, Prod.mk.injEq] at he
      obtain ⟨-, he⟩ := he
      cases he
      rfl

/-- Every run of the handler returns, with a status among 200, 400, 405 and
500, one call of `WriteHeader`, the header `Content-Type: application/json`
sent, and a body that is one JSON object (the three temperature fields, or
`{"error": message}`) or, under status 200 only, nothing at all. -/
theorem TemperatureHandler_response (env : Env) (r : Request) :
    ∃ w t, TemperatureHandler env .fresh r = (.ret w, t) ∧
      (w.Code = 200 ∨ w.Code = 400 ∨ w.Code = 405 ∨ w.Code = 500) ∧
      w.wroteHeader = true ∧ w.writeHeaderCalls = 1 ∧
      ((∃ c f k, w.Body = [.object [(str "temp_C", .number c), (str "temp_F", .number f),
          (str "temp_K", .number k)]]) ∨
        (∃ message, w.Body = [.object [(str "error", .string message)]]) ∨
        (w.Code = 200 ∧ w.Body = [])) ∧
      w.sentHeader = [(str "Content-Type", str "application/json")] := by
  by_cases hm : r.Method = str "GET"
  · by_cases hc : r.Query.Get (str "cep") = str ""
    · exact ⟨_, _, TemperatureHandler_missing env r hm hc, Or.inr (Or.inl rfl), rfl, rfl,
        Or.inr (Or.inl ⟨_, rfl⟩), rfl⟩
    · rcases GetTemperatureByCEP_result env (r.Query.Get (str "cep")) with
        ⟨response, h⟩ | ⟨err, h⟩
      · refine ⟨_, _, TemperatureHandler_success env r hm hc response h, Or.inl rfl, rfl, rfl,
          ?_, rfl⟩
        cases henc : (TemperatureResponse.toJSON response).encodable
        · exact Or.inr (Or.inr ⟨rfl, by simp [henc]⟩)
        · exact Or.inl ⟨_, _, _, by simp only [henc, if_true]; rfl⟩
      · exact ⟨_, _, TemperatureHandler_failure env r hm hc none err h,
          Or.inr (Or.inr (Or.inr rfl)), rfl, rfl, Or.inr (Or.inl ⟨_, rfl⟩), rfl⟩
  · exact ⟨_, _, TemperatureHandler_method env r hm, Or.inr (Or.inr (Or.inl rfl)), rfl, rfl,
      Or.inr (Or.inl ⟨_, rfl⟩), rfl⟩

/-! ## The postal lookup client -/

/-- Removing one byte with `strings.ReplaceAll` is a filter. -/
theorem ReplaceAllAux_remove (b : UInt8) (s : GoString) :
    strings.ReplaceAllAux [b] [] 0 s = s.filter (fun c => c != b) := by
  induction s with
  | nil => rfl
  | cons c cs ih =>
    by_cases h : c = b
    · subst h
      simp [strings.ReplaceAllAux, ih]
    · have h' : ¬ b = c := fun e => h e.symm
      simp [strings.ReplaceAllAux, ih, h, h']

/-- The three `ReplaceAll` calls of `FetchCEPData` remove exactly the
separators. -/
theorem normalize_eq_removeSeparators (s : GoString) :
    viacep.normalize s = removeSeparators s := by
  have e1 : str "-" = [45] := by decide
  have e2 : str "." = [46] := by decide
  have e3 : str " " = [32] := by decide
  have e0 : str "" = [] := by decide
  simp only [viacep.normalize, strings.ReplaceAll, e0, e1, e2, e3, ReplaceAllAux_remove,
    removeSeparators, List.filter_filter]
  congr 1
  funext c
  simp only [isSeparator]
  by_cases h1 : c = 45 <;> by_cases h2 : c = 46 <;> by_cases h3 : c = 32 <;> simp [h1, h2, h3]

/-- `FetchCEPData` when the normalised code does not have 8 bytes. -/
theorem FetchCEPData_invalid (env : Env) (cep : GoString)
    (h : (viacep.normalize cep).length ≠ 8) :
    viacep.FetchCEPData env cep = ((none, some invalidZipcode), [Event.FetchCEPData cep]) := by
  unfold viacep.FetchCEPData
  simp only [h, ne_eq, not_false_eq_true, if_true]
  rfl

/-- `FetchCEPData` when the normalised code has 8 bytes: the result is never
nil, and the run depends on the code through its normalised form only. -/
theorem FetchCEPData_valid (env : Env) (cep : GoString)
    (h : (viacep.normalize cep).length = 8) :
    (∃ result err, (viacep.FetchCEPData env cep).1 = (some result, err)) ∧
    (viacep.FetchCEPData env cep).1 = (viacep.FetchCEPData env (viacep.normalize cep)).1 ∧
    (viacep.FetchCEPData env cep).2.tail =
      (viacep.FetchCEPData env (viacep.normalize cep)).2.tail ∧
    (viacep.FetchCEPData env cep).2.head? = some (Event.FetchCEPData cep) ∧
    ((viacep.FetchCEPData env cep).2.tail = [] ∨
      (viacep.FetchCEPData env cep).2.tail = [.Do (viacep.url (viacep.normalize cep)) []]) ∧
    (env.NewRequest (viacep.url (viacep.normalize cep)) = none →
      (viacep.FetchCEPData env cep).2.tail = [.Do (viacep.url (viacep.normalize cep)) []]) := by
  have hn : viacep.normalize (viacep.normalize cep) = viacep.normalize cep := by
    simp only [normalize_eq_removeSeparators, removeSeparators, List.filter_filter, Bool.and_self]
  unfold viacep.FetchCEPData
  simp only [hn, h, ne_eq, not_true_eq_false, if_false]
  split
  · rename_i heq
    simp [heq]
  · split
    · simp
    · split
      · simp
      · split
        · simp
        · simp

/-- A decimal digit is not a separator. -/
theorem isSeparator_of_isDigit (b : UInt8) (h : isDigit b = true) : isSeparator b = false := by
  cases hs : isSeparator b with
  | false => rfl
  | true =>
    simp only [isSeparator, Bool.or_eq_true, decide_eq_true_eq] at hs
    rcases hs with (rfl | rfl) | rfl <;> exact absurd h (by decide)

/-- Removing the separators undoes their insertion. -/
theorem removeSeparators_of_Inserted {d s : GoString} (hs : Inserted d s)
    (hd : ∀ b ∈ d, isSeparator b = false) : removeSeparators s = d := by
  induction hs with
  | nil => rfl
  | keep b _ ih =>
    have hb : isSeparator b = false := hd b (List.mem_cons_self _ _)
    have := ih (fun c hc => hd c (List.mem_cons_of_mem _ hc))
    simp only [removeSeparators] at this ⊢
    simp [List.filter_cons, hb, this]
  | sep b hb _ ih =>
    have := ih hd
    simp only [removeSeparators] at this ⊢
    simp [List.filter_cons, hb, this]

/-- With a normalised code of 8 bytes, an error of `FetchCEPData` reads
`invalid zipcode` only if the outside world worded it so. -/
theorem FetchCEPData_error_message (env : Env) (cep : GoString)
    (h : (viacep.normalize cep).length = 8) (henv : env.neverSays (str "invalid zipcode"))
    (err : GoError) (he : (viacep.FetchCEPData env cep).1.2 = some err) :
    err.Error ≠ str "invalid zipcode" := by
  obtain ⟨h₁, h₂, h₃, h₄⟩ := henv
  unfold viacep.FetchCEPData at he
  simp only [h, ne_eq, not_true_eq_false, if_false] at he
  split at he
  · rename_i e heq
    simp only [Option.some.injEq] at he
    subst he
    exact h₁ _ _ heq
  · split at he
    · rename_i e heq
      simp only [Option.some.injEq] at he
      subst he
      exact h₂ _ _ _ heq
    · rename_i resp heq
      split at he
      · simp only [Option.some.injEq] at he
        subst he
        intro hmsg
        have hhead := congrArg List.head? hmsg
        have hbytes : some (115 : UInt8) = some 105 := hhead
        exact absurd hbytes (by decide)
      · split at he
        · rename_i e hbody
          simp only [Option.some.injEq] at he
          subst he
          exact h₃ _ _ _ _ heq hbody
        · exact h₄ _ _ he

/-- C5: for every input whose normalised form (the input without its `-`, `.`
and space bytes) does not have length 8, `FetchCEPData` returns the nil result
with the error `invalid zipcode`, and the run holds its own entry only: no
request goes to the postal service. -/
theorem C5_invalid_format (env : Env) (cep : GoString)
    (h : (removeSeparators cep).length ≠ 8) :
    viacep.FetchCEPData env cep =
        ((none, some (errors.New (str "invalid zipcode"))), [Event.FetchCEPData cep]) ∧
      ∀ e ∈ (viacep.FetchCEPData env cep).2, e.isRequest = false := by
  have hn : (viacep.normalize cep).length ≠ 8 := by
    rw [normalize_eq_removeSeparators]
    exact h
  have hr := FetchCEPData_invalid env cep hn
  refine ⟨hr, ?_⟩
  rw [hr]
  intro e he
  simp only [List.mem_singleton] at he
  subst he
  rfl

/-- C5 at `"123"`, `"123456789"`, `""` and `"abc-def"`, in the healthy world. -/
theorem C5_invalid_format_witness :
    ((removeSeparators (str "123")).length ≠ 8 ∧
      viacep.FetchCEPData Env.healthy (str "123") =
          ((none, some (errors.New (str "invalid zipcode"))), [Event.FetchCEPData (str "123")]) ∧
        ∀ e ∈ (viacep.FetchCEPData Env.healthy (str "123")).2, e.isRequest = false) ∧
    ((removeSeparators (str "123456789")).length ≠ 8 ∧
      viacep.FetchCEPData Env.healthy (str "123456789") =
          ((none, some (errors.New (str "invalid zipcode"))),
            [Event.FetchCEPData (str "123456789")]) ∧
        ∀ e ∈ (viacep.FetchCEPData Env.healthy (str "123456789")).2, e.isRequest = false) ∧
    ((removeSeparators (str "")).length ≠ 8 ∧
      viacep.FetchCEPData Env.healthy (str "") =
          ((none, some (errors.New (str "invalid zipcode"))), [Event.FetchCEPData (str "")]) ∧
        ∀ e ∈ (viacep.FetchCEPData Env.healthy (str "")).2, e.isRequest = false) ∧
    ((removeSeparators (str "abc-def")).length ≠ 8 ∧
      viacep.FetchCEPData Env.healthy (str "abc-def") =
          ((none, some (errors.New (str "invalid zipcode"))),
            [Event.FetchCEPData (str "abc-def")]) ∧
        ∀ e ∈ (viacep.FetchCEPData Env.healthy (str "abc-def")).2, e.isRequest = false) :=
  ⟨⟨by decide, C5_invalid_format Env.healthy (str "123") (by decide)⟩,
    ⟨by decide, C5_invalid_format Env.healthy (str "123456789") (by decide)⟩,
    ⟨by decide, C5_invalid_format Env.healthy (str "") (by decide)⟩,
    ⟨by decide, C5_invalid_format Env.healthy (str "abc-def") (by decide)⟩⟩

/-- C6, refuted as stated: the normalised form of `"abcdefgh"` is `"abcdefgh"`,
8 bytes none of which is a digit, and `FetchCEPData` does not reject it: it
asks the postal service for `https://viacep.com.br/ws/abcdefgh/json` and, in
the healthy world, returns the decoded address with a nil error. -/
theorem C6_counterexample :
    viacep.normalize (str "abcdefgh") = str "abcdefgh" ∧
    (str "abcdefgh").all isDigit = false ∧
    ¬ viacep.Rejected Env.healthy (str "abcdefgh") ∧
    viacep.FetchCEPData Env.healthy (str "abcdefgh") =
      ((some { CEP := str "35620-000", Localidade := str "Bom Despacho", UF := str "MG" }, none),
        [Event.FetchCEPData (str "abcdefgh"),
          Event.Do (str "https://viacep.com.br/ws/abcdefgh/json") []]) := by
  refine ⟨by decide, by decide, ?_, by decide⟩
  unfold viacep.Rejected
  decide

/-- C6 as amended: `FetchCEPData` accepts a postal code at its format
validation if and only if the normalised form has exactly 8 bytes, whatever
the bytes are; so every code whose normalised form is 8 decimal digits is
accepted. -/
theorem C6_accepts_iff_length (env : Env) (cep : GoString) :
    (¬ viacep.Rejected env cep ↔ (removeSeparators cep).length = 8) ∧
    ((removeSeparators cep).length = 8 ∧ (removeSeparators cep).all isDigit = true →
      ¬ viacep.Rejected env cep) := by
  have key : ¬ viacep.Rejected env cep ↔ (removeSeparators cep).length = 8 := by
    rw [← normalize_eq_removeSeparators]
    unfold viacep.Rejected
    constructor
    · intro hacc
      by_contra hlen
      exact hacc (by rw [FetchCEPData_invalid env cep hlen])
    · intro hlen hrej
      obtain ⟨⟨result, err, hres⟩, -⟩ := FetchCEPData_valid env cep hlen
      rw [hres] at hrej
      simp at hrej
  exact ⟨key, fun h => key.mpr h.1⟩

/-- C7: for every code `d` of 8 decimal digits and every `s` obtained from `d`
by inserting `-`, `.` and space bytes anywhere, `FetchCEPData` normalises `s`
to `d`, does not reject it, returns what it returns for `d` itself, sends no
request other than the one keyed by `d` (and sends that one whenever the
request can be built), and its error, if any, does not read `invalid zipcode`
unless the outside world worded it so. -/
theorem C7_separator_insensitive (d s : GoString) (hlen : d.length = 8)
    (hd : ∀ b ∈ d, isDigit b = true) (hs : Inserted d s) :
    viacep.normalize s = d ∧
    ∀ env : Env,
      ¬ viacep.Rejected env s ∧
      (viacep.FetchCEPData env s).1 = (viacep.FetchCEPData env d).1 ∧
      (viacep.FetchCEPData env s).2.filter Event.isRequest =
        (viacep.FetchCEPData env d).2.filter Event.isRequest ∧
      (∀ e ∈ (viacep.FetchCEPData env s).2, e.isRequest = true → e = .Do (viacep.url d) []) ∧
      (env.NewRequest (viacep.url d) = none →
        (viacep.FetchCEPData env s).2 = [.FetchCEPData s, .Do (viacep.url d) []]) ∧
      (env.neverSays (str "invalid zipcode") →
        ∀ err, (viacep.FetchCEPData env s).1.2 = some err →
          err.Error ≠ str "invalid zipcode") := by
  have hsep : ∀ b ∈ d, isSeparator b = false := fun b hb => isSeparator_of_isDigit b (hd b hb)
  have hns : viacep.normalize s = d := by
    rw [normalize_eq_removeSeparators]
    exact removeSeparators_of_Inserted hs hsep
  have hnd : viacep.normalize d = d := by
    rw [normalize_eq_removeSeparators, removeSeparators, List.filter_eq_self]
    intro b hb
    simp [hsep b hb]
  have hls : (viacep.normalize s).length = 8 := by rw [hns]; exact hlen
  have hld : (viacep.normalize d).length = 8 := by rw [hnd]; exact hlen
  refine ⟨hns, fun env => ?_⟩
  obtain ⟨⟨result, err, hres⟩, h1, h2, h3, h4, h5⟩ := FetchCEPData_valid env s hls
  obtain ⟨-, g1, g2, g3, -, -⟩ := FetchCEPData_valid env d hld
  rw [hns] at h1 h2 h4 h5
  rw [hnd] at g1 g2
  have split_s : (viacep.FetchCEPData env s).2 =
      Event.FetchCEPData s :: (viacep.FetchCEPData env s).2.tail := by
    cases hl : (viacep.FetchCEPData env s).2 with
    | nil => rw [hl] at h3; simp at h3
    | cons a l => rw [hl] at h3; simp at h3; simp [h3]
  have split_d : (viacep.FetchCEPData env d).2 =
      Event.FetchCEPData d :: (viacep.FetchCEPData env d).2.tail := by
    cases hl : (viacep.FetchCEPData env d).2 with
    | nil => rw [hl] at g3; simp at g3
    | cons a l => rw [hl] at g3; simp at g3; simp [g3]
  refine ⟨?_, ?_, ?_, ?_, ?_, ?_⟩
  · unfold viacep.Rejected
    rw [hres]
    simp
  · rw [h1, g1]
  · rw [split_s, split_d, h2, ← g2]
    simp [List.filter_cons, Event.isRequest]
  · intro e he hreq
    rw [split_s] at he
    rcases List.mem_cons.mp he with rfl | he
    · simp [Event.isRequest] at hreq
    · rcases h4 with h4 | h4
      · rw [h4] at he
        simp at he
      · rw [h4] at he
        simpa using he
  · intro hnr
    rw [split_s, h5 hnr]
  · intro henv e he
    exact FetchCEPData_error_message env s hls henv e he

/-- C7 at `"35620-000"`, `"35620.000"`, `"35620 000"` and `"35620000"`: all
four normalise to `"35620000"` and are looked up under that key. -/
theorem C7_separator_insensitive_witness :
    (viacep.normalize (str "35620-000") = str "35620000" ∧
      viacep.normalize (str "35620.000") = str "35620000" ∧
      viacep.normalize (str "35620 000") = str "35620000" ∧
      viacep.normalize (str "35620000") = str "35620000") ∧
    (viacep.FetchCEPData Env.healthy (str "35620-000")).2 =
      [.FetchCEPData (str "35620-000"), .Do (str "https://viacep.com.br/ws/35620000/json") []] ∧
    ¬ viacep.Rejected Env.healthy (str "- 3.5.6 2-0 0..0-0 ") :=
  have hins : ∀ {d s : GoString}, Inserted d s → ∀ b : UInt8, Inserted (b :: d) (b :: s) :=
    fun h b => Inserted.keep b h
  have base : Inserted (str "000") (str "000") := hins (hins (hins Inserted.nil 48) 48) 48
  have head : ∀ {d s : GoString}, Inserted d s →
      Inserted (str "35620" ++ d) (str "35620" ++ s) :=
    fun h => hins (hins (hins (hins (hins h 48) 50) 54) 53) 51
  have hdigits : ∀ b ∈ str "35620000", isDigit b = true := by decide
  have w1 := C7_separator_insensitive (str "35620000") (str "35620-000") (by decide) hdigits
    (head (Inserted.sep 45 (by decide) base))
  have w2 := C7_separator_insensitive (str "35620000") (str "35620.000") (by decide) hdigits
    (head (Inserted.sep 46 (by decide) base))
  have w3 := C7_separator_insensitive (str "35620000") (str "35620 000") (by decide) hdigits
    (head (Inserted.sep 32 (by decide) base))
  have w4 := C7_separator_insensitive (str "35620000") (str "35620000") (by decide) hdigits
    (head base)
  ⟨⟨w1.1, w2.1, w3.1, w4.1⟩, (w1.2 Env.healthy).2.2.2.2.1 rfl, by
    unfold viacep.Rejected
    decide⟩

/-! ## The orchestrator -/

/-- The events of `FetchCEPData`: its entry, then at most one request. -/
theorem FetchCEPData_trace (env : Env) (cep : GoString) :
    (viacep.FetchCEPData env cep).2 = [.FetchCEPData cep] ∨
      ∃ url header, (viacep.FetchCEPData env cep).2 = [.FetchCEPData cep, .Do url header] := by
  unfold viacep.FetchCEPData
  simp only []
  split
  · exact Or.inl rfl
  · split
    · exact Or.inl rfl
    · split
      · exact Or.inr ⟨_, _, rfl⟩
      · split
        · exact Or.inr ⟨_, _, rfl⟩
        · split
          · exact Or.inr ⟨_, _, rfl⟩
          · exact Or.inr ⟨_, _, rfl⟩

/-- The events of the place search: its entry, then at most one request. -/
theorem FecthSearch_trace (env : Env) (city : GoString) :
    (FecthSearchFromWeatherAPI env city).2 = [.FecthSearchFromWeatherAPI city] ∨
      ∃ url header,
        (FecthSearchFromWeatherAPI env city).2 = [.FecthSearchFromWeatherAPI city, .Do url header] := by
  unfold FecthSearchFromWeatherAPI
  simp only []
  split
  · exact Or.inl rfl
  · split
    · exact Or.inl rfl
    · split
      · exact Or.inr ⟨_, _, rfl⟩
      · split
        · exact Or.inr ⟨_, _, rfl⟩
        · split
          · exact Or.inr ⟨_, _, rfl⟩
          · split
            · exact Or.inr ⟨_, _, rfl⟩
            · exact Or.inr ⟨_, _, rfl⟩

/-- The orchestrator when the postal lookup fails. -/
theorem GetTemperatureByCEP_postal_failure (env : Env) (cep : GoString)
    (result : Option viacep.CEPResponse) (err : GoError) (t₁ : List Event)
    (h₁ : viacep.FetchCEPData env cep = ((result, some err), t₁)) :
    GetTemperatureByCEP env cep =
      (.ret (none, some (fmt.Errorf_w (str "can not find zipcode: ") err)),
        Event.GetTemperatureByCEP cep :: t₁) := by
  unfold GetTemperatureByCEP
  rw [h₁]
  cases result <;> rfl

/-- The orchestrator when the place search fails. -/
theorem GetTemperatureByCEP_city_failure (env : Env) (cep : GoString)
    (cepData : viacep.CEPResponse) (t₁ : List Event)
    (h₁ : viacep.FetchCEPData env cep = ((some cepData, none), t₁))
    (found : Option Search) (err : GoError) (t₂ : List Event)
    (h₂ : FecthSearchFromWeatherAPI env cepData.Localidade = ((found, some err), t₂)) :
    GetTemperatureByCEP env cep =
      (.ret (none, some (fmt.Errorf_w (str "can not find city: ") err)),
        Event.GetTemperatureByCEP cep :: t₁ ++ t₂) := by
  unfold GetTemperatureByCEP
  rw [h₁]
  simp only []
  rw [h₂]
  cases found <;> rfl

/-- The orchestrator when the weather fetch fails. -/
theorem GetTemperatureByCEP_weather_failure (env : Env) (cep : GoString)
    (cepData : viacep.CEPResponse) (t₁ : List Event)
    (h₁ : viacep.FetchCEPData env cep = ((some cepData, none), t₁))
    (searchData : Search) (t₂ : List Event)
    (h₂ : FecthSearchFromWeatherAPI env cepData.Localidade = ((some searchData, none), t₂))
    (snapshot : Option WeatherResponse) (err : GoError) (t₃ : List Event)
    (h₃ : FetchWeatherData env searchData.Lat searchData.Lon = ((snapshot, some err), t₃)) :
    GetTemperatureByCEP env cep =
      (.ret (none, some (fmt.Errorf_w (str "can not find zipcode: ") err)),
        Event.GetTemperatureByCEP cep :: t₁ ++ t₂ ++ t₃) := by
  unfold GetTemperatureByCEP
  rw [h₁]
  simp only []
  rw [h₂]
  simp only []
  rw [h₃]
  cases snapshot <;> rfl

/-- C8: `GetTemperatureByCEP` stops at the first failing stage and is
all-or-nothing.  It always returns either a reading with a nil error or a nil
reading with an error.  When the postal lookup fails, its events are its own
entry and those of the lookup: neither the place search nor the weather fetch
is entered.  When the lookup succeeds and the place search fails, its events
are its entry, those of the lookup and those of the search: the weather fetch
is not entered. -/
theorem C8_short_circuit (env : Env) (cep : GoString) :
    ((∃ response, (GetTemperatureByCEP env cep).1 = .ret (some response, none)) ∨
      ∃ err, (GetTemperatureByCEP env cep).1 = .ret (none, some err)) ∧
    (∀ err, (viacep.FetchCEPData env cep).1.2 = some err →
      (GetTemperatureByCEP env cep).2 =
          Event.GetTemperatureByCEP cep :: (viacep.FetchCEPData env cep).2 ∧
        ∀ e ∈ (GetTemperatureByCEP env cep).2,
          e.isSearchCall = false ∧ e.isWeatherCall = false) ∧
    (∀ cepData, (viacep.FetchCEPData env cep).1 = (some cepData, none) →
      ∀ err, (FecthSearchFromWeatherAPI env cepData.Localidade).1.2 = some err →
        (GetTemperatureByCEP env cep).2 =
            Event.GetTemperatureByCEP cep :: (viacep.FetchCEPData env cep).2 ++
              (FecthSearchFromWeatherAPI env cepData.Localidade).2 ∧
          ∀ e ∈ (GetTemperatureByCEP env cep).2, e.isWeatherCall = false) := by
  refine ⟨GetTemperatureByCEP_result env cep, ?_, ?_⟩
  · intro err herr
    have htrace := FetchCEPData_trace env cep
    rcases hx : viacep.FetchCEPData env cep with ⟨⟨result, e₁⟩, t₁⟩
    rw [hx] at herr htrace
    simp only at herr htrace
    subst herr
    rw [GetTemperatureByCEP_postal_failure env cep result err t₁ hx]
    refine ⟨rfl, ?_⟩
    intro e he
    simp only [List.mem_cons] at he
    rcases he with rfl | he
    · exact ⟨rfl, rfl⟩
    · rcases htrace with h | ⟨url, header, h⟩
      · rw [h] at he
        simp only [List.mem_singleton] at he
        subst he
        exact ⟨rfl, rfl⟩
      · rw [h] at he
        simp only [List.mem_cons, List.mem_singleton, List.not_mem_nil, or_false] at he
        rcases he with rfl | rfl <;> exact ⟨rfl, rfl⟩
  · intro cepData hcep err herr
    have htrace₁ := FetchCEPData_trace env cep
    have htrace₂ := FecthSearch_trace env cepData.Localidade
    rcases hx₁ : viacep.FetchCEPData env cep with ⟨res₁, t₁⟩
    rw [hx₁] at hcep htrace₁
    simp only at hcep htrace₁
    subst hcep
    rcases hx₂ : FecthSearchFromWeatherAPI env cepData.Localidade with ⟨⟨found, e₂⟩, t₂⟩
    rw [hx₂] at herr htrace₂
    simp only at herr htrace₂
    subst herr
    rw [GetTemperatureByCEP_city_failure env cep cepData t₁ hx₁ found err t₂ hx₂]
    refine ⟨rfl, ?_⟩
    intro e he
    simp only [List.mem_cons, List.mem_append, List.cons_append] at he
    rcases he with rfl | he | he
    · rfl
    · rcases htrace₁ with h | ⟨url, header, h⟩
      · rw [h] at he
        simp only [List.mem_singleton] at he
        subst he
        rfl
      · rw [h] at he
        simp only [List.mem_cons, List.mem_singleton, List.not_mem_nil, or_false] at he
        rcases he with rfl | rfl <;> rfl
    · rcases htrace₂ with h | ⟨url, header, h⟩
      · rw [h] at he
        simp only [List.mem_singleton] at he
        subst he
        rfl
      · rw [h] at he
        simp only [List.mem_cons, List.mem_singleton, List.not_mem_nil, or_false] at he
        rcases he with rfl | rfl <;> rfl

set_option maxRecDepth 8192

/-- In the world without network the postal lookup of a well-formed code
fails, and the orchestrator stops there. -/
theorem GetTemperatureByCEP_offline :
    GetTemperatureByCEP Env.offline (str "35620-000") =
      (.ret (none, some (.wrap (str "can not find zipcode: connection refused")
          (.new (str "connection refused")))),
        [.GetTemperatureByCEP (str "35620-000"), .FetchCEPData (str "35620-000"),
          .Do (str "https://viacep.com.br/ws/35620000/json") []]) := by
  decide

/-- When only the search service is down, the orchestrator stops at the place
search. -/
theorem GetTemperatureByCEP_searchDown :
    GetTemperatureByCEP Env.searchDown (str "35620-000") =
      (.ret (none, some (.wrap (str "can not find city: connection refused")
          (.new (str "connection refused")))),
        [.GetTemperatureByCEP (str "35620-000"), .FetchCEPData (str "35620-000"),
          .Do (str "https://viacep.com.br/ws/35620000/json") [],
          .FecthSearchFromWeatherAPI (str "Bom Despacho"),
          .Do (str "https://api.weatherapi.com/v1/search.json?q=Bom+Despacho")
            [(str "key", str "secret")]]) := by
  decide

/-- C9, evaluated where the code departs from it: in the world where the
postal lookup and the place search succeed and the weather request fails with
`connection refused`, the failing stage is the weather fetch, yet the error of
`GetTemperatureByCEP` carries the label of the postal stage; it is the very
error returned when the postal lookup itself fails with that cause. -/
theorem C9_weather_failure_label :
    (viacep.FetchCEPData Env.weatherDown (str "35620-000")).1.2 = none ∧
    (FecthSearchFromWeatherAPI Env.weatherDown (str "Bom Despacho")).1.2 = none ∧
    (FetchWeatherData Env.weatherDown (-19.73) (-45.25)).1 =
      (none, some (.new (str "connection refused"))) ∧
    (GetTemperatureByCEP Env.weatherDown (str "35620-000")).1 =
      .ret (none, some (.wrap (str "can not find zipcode: connection refused")
        (.new (str "connection refused")))) ∧
    (GetTemperatureByCEP Env.weatherDown (str "35620-000")).1 =
      (GetTemperatureByCEP Env.offline (str "35620-000")).1 := by
  refine ⟨by decide, by decide, by decide, by decide, by decide⟩

/-- The message of a wrapped error: the prefix, then the message of the cause. -/
theorem Errorf_w_Error (label : GoString) (err : GoError) :
    (fmt.Errorf_w (label ++ str ": ") err).Error = label ++ str ": " ++ err.Error ∧
      err.Error <:+ (fmt.Errorf_w (label ++ str ": ") err).Error ∧
      (fmt.Errorf_w (label ++ str ": ") err).Unwrap = some err :=
  ⟨rfl, ⟨label ++ str ": ", rfl⟩, rfl⟩

/-- C10: whichever of the three stages fails, with a cause whose message is
`m`, the error returned by `GetTemperatureByCEP` reads the label the code gives
that stage, then `": "`, then `m` unchanged (so it ends with `m`), and it wraps
the cause; the labels are `can not find zipcode` for the postal lookup,
`can not find city` for the place search and `can not find zipcode` for the
weather fetch.  The handler puts that very message in the body of its 500
response. -/
theorem C10_cause_preserved (env : Env) (cep : GoString) :
    (∀ result err t₁, viacep.FetchCEPData env cep = ((result, some err), t₁) →
      ∃ e, (GetTemperatureByCEP env cep).1 = .ret (none, some e) ∧
        e.Error = str "can not find zipcode" ++ str ": " ++ err.Error ∧
        err.Error <:+ e.Error ∧ e.Unwrap = some err) ∧
    (∀ cepData t₁, viacep.FetchCEPData env cep = ((some cepData, none), t₁) →
      ∀ found err t₂,
        FecthSearchFromWeatherAPI env cepData.Localidade = ((found, some err), t₂) →
        ∃ e, (GetTemperatureByCEP env cep).1 = .ret (none, some e) ∧
          e.Error = str "can not find city" ++ str ": " ++ err.Error ∧
          err.Error <:+ e.Error ∧ e.Unwrap = some err) ∧
    (∀ cepData t₁, viacep.FetchCEPData env cep = ((some cepData, none), t₁) →
      ∀ searchData t₂,
        FecthSearchFromWeatherAPI env cepData.Localidade = ((some searchData, none), t₂) →
        ∀ snapshot err t₃,
          FetchWeatherData env searchData.Lat searchData.Lon = ((snapshot, some err), t₃) →
          ∃ e, (GetTemperatureByCEP env cep).1 = .ret (none, some e) ∧
            e.Error = str "can not find zipcode" ++ str ": " ++ err.Error ∧
            err.Error <:+ e.Error ∧ e.Unwrap = some err) ∧
    (∀ r : Request, r.Method = str "GET" → r.Query.Get (str "cep") = cep → cep ≠ str "" →
      ∀ res e, (GetTemperatureByCEP env cep).1 = .ret (res, some e) →
        ∃ w, (TemperatureHandler env .fresh r).1 = .ret w ∧ w.Code = 500 ∧
          w.Body = [.object [(str "error", .string e.Error)]]) := by
  have hzip : str "can not find zipcode: " = str "can not find zipcode" ++ str ": " := by decide
  have hcity : str "can not find city: " = str "can not find city" ++ str ": " := by decide
  refine ⟨?_, ?_, ?_, ?_⟩
  · intro result err t₁ h₁
    rw [GetTemperatureByCEP_postal_failure env cep result err t₁ h₁, hzip]
    exact ⟨_, rfl, Errorf_w_Error _ err⟩
  · intro cepData t₁ h₁ found err t₂ h₂
    rw [GetTemperatureByCEP_city_failure env cep cepData t₁ h₁ found err t₂ h₂, hcity]
    exact ⟨_, rfl, Errorf_w_Error _ err⟩
  · intro cepData t₁ h₁ searchData t₂ h₂ snapshot err t₃ h₃
    rw [GetTemperatureByCEP_weather_failure env cep cepData t₁ h₁ searchData t₂ h₂ snapshot err
      t₃ h₃, hzip]
    exact ⟨_, rfl, Errorf_w_Error _ err⟩
  · intro r hm hq hc res e he
    subst hq
    rw [TemperatureHandler_failure env r hm hc res e he]
    exact ⟨_, rfl, rfl, rfl⟩

/-! ## The temperature reading -/

/-- Indexing the map of `FormatTemperatures` at its three keys. -/
theorem FormatTemperatures_index (c : Float64) :
    (utils.FormatTemperatures c).index (str "temp_C") = c ∧
    (utils.FormatTemperatures c).index (str "temp_F") = utils.ConvertCelsiusToFahrenheit c ∧
    (utils.FormatTemperatures c).index (str "temp_K") = utils.ConvertCelsiusToKelvin c :=
  ⟨rfl, rfl, rfl⟩

/-- The orchestrator when the three stages succeed. -/
theorem GetTemperatureByCEP_success (env : Env) (cep : GoString)
    (cepData : viacep.CEPResponse) (t₁ : List Event)
    (h₁ : viacep.FetchCEPData env cep = ((some cepData, none), t₁))
    (searchData : Search) (t₂ : List Event)
    (h₂ : FecthSearchFromWeatherAPI env cepData.Localidade = ((some searchData, none), t₂))
    (weatherData : WeatherResponse) (t₃ : List Event)
    (h₃ : FetchWeatherData env searchData.Lat searchData.Lon = ((some weatherData, none), t₃)) :
    GetTemperatureByCEP env cep =
      (.ret (some
          { Temp_C := weatherData.Current.TempC,
            Temp_F := utils.ConvertCelsiusToFahrenheit weatherData.Current.TempC,
            Temp_K := utils.ConvertCelsiusToKelvin weatherData.Current.TempC }, none),
        Event.GetTemperatureByCEP cep :: t₁ ++ t₂ ++ t₃) := by
  unfold GetTemperatureByCEP
  rw [h₁]
  simp only []
  rw [h₂]
  simp only []
  rw [h₃]
  rfl

/-- The postal lookup does not read the weather decoder. -/
theorem FetchCEPData_setUpstreamFahrenheit (env : Env) (f : Float64) (cep : GoString) :
    viacep.FetchCEPData (env.setUpstreamFahrenheit f) cep = viacep.FetchCEPData env cep := rfl

/-- The place search does not read the weather decoder. -/
theorem FecthSearch_setUpstreamFahrenheit (env : Env) (f : Float64) (city : GoString) :
    FecthSearchFromWeatherAPI (env.setUpstreamFahrenheit f) city =
      FecthSearchFromWeatherAPI env city := rfl

/-- Replacing the upstream Fahrenheit field changes that field of the
snapshot and nothing else of the weather fetch. -/
theorem FetchWeatherData_setUpstreamFahrenheit (env : Env) (f lat lon : Float64) :
    (∀ err t, FetchWeatherData env lat lon = ((none, some err), t) →
      FetchWeatherData (env.setUpstreamFahrenheit f) lat lon = ((none, some err), t)) ∧
    (∀ w t, FetchWeatherData env lat lon = ((some w, none), t) →
      FetchWeatherData (env.setUpstreamFahrenheit f) lat lon =
        ((some { w with Current := { w.Current with TempF := f } }, none), t)) := by
  have hk : (env.setUpstreamFahrenheit f).apiKey = env.apiKey := rfl
  have hn : (env.setUpstreamFahrenheit f).NewRequest = env.NewRequest := rfl
  have hd : (env.setUpstreamFahrenheit f).Do = env.Do := rfl
  have hu : currentURL (env.setUpstreamFahrenheit f) lat lon = currentURL env lat lon := rfl
  have hw : ∀ body, (env.setUpstreamFahrenheit f).UnmarshalWeather body =
      match env.UnmarshalWeather body with
      | .ok w => .ok { w with Current := { w.Current with TempF := f } }
      | .error err => .error err := fun _ => rfl
  unfold FetchWeatherData
  simp only [hk, hn, hd, hu, hw]
  split
  · simp
  · split
    · simp
    · split
      · simp
      · split
        · simp
        · rename_i body hbody
          cases hdec : env.UnmarshalWeather body with
          | error err => simp
          | ok w => simp

/-- Replacing the upstream Fahrenheit field leaves the run of the orchestrator
unchanged. -/
theorem GetTemperatureByCEP_setUpstreamFahrenheit (env : Env) (f : Float64) (cep : GoString) :
    GetTemperatureByCEP (env.setUpstreamFahrenheit f) cep = GetTemperatureByCEP env cep := by
  rcases GetTemperatureByCEP_cases env cep with
    ⟨result, err, t₁, h₁, h⟩ | ⟨cepData, t₁, err, t₂, h₁, h₂, h⟩ |
    ⟨cepData, t₁, searchData, t₂, err, t₃, h₁, h₂, h₃, h⟩ |
    ⟨cepData, t₁, searchData, t₂, weatherData, t₃, h₁, h₂, h₃, -⟩
  · rw [h]
    exact GetTemperatureByCEP_postal_failure _ cep result err t₁
      ((FetchCEPData_setUpstreamFahrenheit env f cep).trans h₁)
  · rw [h]
    exact GetTemperatureByCEP_city_failure _ cep cepData t₁
      ((FetchCEPData_setUpstreamFahrenheit env f cep).trans h₁) none err t₂
      ((FecthSearch_setUpstreamFahrenheit env f _).trans h₂)
  · rw [h]
    exact GetTemperatureByCEP_weather_failure _ cep cepData t₁
      ((FetchCEPData_setUpstreamFahrenheit env f cep).trans h₁) searchData t₂
      ((FecthSearch_setUpstreamFahrenheit env f _).trans h₂) none err t₃
      ((FetchWeatherData_setUpstreamFahrenheit env f _ _).1 err t₃ h₃)
  · have e := GetTemperatureByCEP_success (env.setUpstreamFahrenheit f) cep cepData t₁
      ((FetchCEPData_setUpstreamFahrenheit env f cep).trans h₁) searchData t₂
      ((FecthSearch_setUpstreamFahrenheit env f _).trans h₂)
      { weatherData with Current := { weatherData.Current with TempF := f } } t₃
      ((FetchWeatherData_setUpstreamFahrenheit env f _ _).2 weatherData t₃ h₃)
    rw [e, GetTemperatureByCEP_success env cep cepData t₁ h₁ searchData t₂ h₂ weatherData t₃ h₃]

/-- C11: every reading is derived from one Celsius value.  The map of
`FormatTemperatures(c)` has the keys `temp_C`, `temp_F`, `temp_K` and no
other, holding `c`, `ConvertCelsiusToFahrenheit(c)` and
`ConvertCelsiusToKelvin(c)`.  Whenever `GetTemperatureByCEP` returns a reading,
its `Temp_C` is the Celsius temperature of the snapshot the weather fetch
returned, and `Temp_F`, `Temp_K` are the two conversions of `Temp_C`.  The
Fahrenheit field of the upstream snapshot is not used: replacing it by any
value leaves the whole run of `GetTemperatureByCEP` unchanged. -/
theorem C11_reading_from_celsius (env : Env) (cep : GoString) :
    (∀ c : Float64,
      (utils.FormatTemperatures c).map Prod.fst = [str "temp_C", str "temp_F", str "temp_K"] ∧
      (utils.FormatTemperatures c).index (str "temp_C") = c ∧
      (utils.FormatTemperatures c).index (str "temp_F") = utils.ConvertCelsiusToFahrenheit c ∧
      (utils.FormatTemperatures c).index (str "temp_K") = utils.ConvertCelsiusToKelvin c) ∧
    (∀ response, (GetTemperatureByCEP env cep).1 = .ret (some response, none) →
      response.Temp_F = utils.ConvertCelsiusToFahrenheit response.Temp_C ∧
      response.Temp_K = utils.ConvertCelsiusToKelvin response.Temp_C ∧
      ∃ cepData t₁ searchData t₂ weatherData t₃,
        viacep.FetchCEPData env cep = ((some cepData, none), t₁) ∧
        FecthSearchFromWeatherAPI env cepData.Localidade = ((some searchData, none), t₂) ∧
        FetchWeatherData env searchData.Lat searchData.Lon = ((some weatherData, none), t₃) ∧
        response.Temp_C = weatherData.Current.TempC) ∧
    (∀ f : Float64, GetTemperatureByCEP (env.setUpstreamFahrenheit f) cep =
      GetTemperatureByCEP env cep) := by
  refine ⟨fun c => ⟨rfl, FormatTemperatures_index c⟩, ?_,
    fun f => GetTemperatureByCEP_setUpstreamFahrenheit env f cep⟩
  intro response hresp
  rcases GetTemperatureByCEP_cases env cep with
    ⟨_, _, _, _, h⟩ | ⟨_, _, _, _, _, _, h⟩ | ⟨_, _, _, _, _, _, _, _, _, h⟩ |
    ⟨cepData, t₁, searchData, t₂, weatherData, t₃, h₁, h₂, h₃, -⟩
  · rw [h] at hresp
    simp at hresp
  · rw [h] at hresp
    simp at hresp
  · rw [h] at hresp
    simp at hresp
  · rw [GetTemperatureByCEP_success env cep cepData t₁ h₁ searchData t₂ h₂ weatherData t₃ h₃]
      at hresp
    simp only [Run.ret.injEq, Prod.mk.injEq, Option.some.injEq, and_true] at hresp
    subst hresp
    exact ⟨rfl, rfl, cepData, t₁, searchData, t₂, weatherData, t₃, h₁, h₂, h₃, rfl⟩

/-- In the healthy world the reading is 25 °C, 77 °F and 298.15 K, also when
the upstream Fahrenheit field is made to read 0. -/
theorem GetTemperatureByCEP_healthy :
    (GetTemperatureByCEP Env.healthy (str "35620-000")).1 =
      .ret (some { Temp_C := 25, Temp_F := 77, Temp_K := 298.15 }, none) ∧
    (GetTemperatureByCEP (Env.healthy.setUpstreamFahrenheit 0) (str "35620-000")).1 =
      .ret (some { Temp_C := 25, Temp_F := 77, Temp_K := 298.15 }, none) := by
  have h₁ : viacep.FetchCEPData Env.healthy (str "35620-000") =
      ((some { CEP := str "35620-000", Localidade := str "Bom Despacho", UF := str "MG" }, none),
        [.FetchCEPData (str "35620-000"), .Do (str "https://viacep.com.br/ws/35620000/json") []]) := by
    decide
  have h₂ : FecthSearchFromWeatherAPI Env.healthy (str "Bom Despacho") =
      ((some { Id := 1, Name := str "Bom Despacho", Lat := -19.73, Lon := -45.25 }, none),
        [.FecthSearchFromWeatherAPI (str "Bom Despacho"),
          .Do (str "https://api.weatherapi.com/v1/search.json?q=Bom+Despacho")
            [(str "key", str "secret")]]) := rfl
  have h₃ : FetchWeatherData Env.healthy (-19.73) (-45.25) =
      ((some { Current := { TempC := 25, TempF := 77 } }, none),
        (FetchWeatherData Env.healthy (-19.73) (-45.25)).2) := rfl
  have key : (GetTemperatureByCEP Env.healthy (str "35620-000")).1 =
      .ret (some { Temp_C := 25, Temp_F := 77, Temp_K := 298.15 }, none) := by
    have e := GetTemperatureByCEP_success Env.healthy (str "35620-000")
      { CEP := str "35620-000", Localidade := str "Bom Despacho", UF := str "MG" } _ h₁
      { Id := 1, Name := str "Bom Despacho", Lat := -19.73, Lon := -45.25 } _ h₂
      { Current := { TempC := 25, TempF := 77 } } _ h₃
    have hf : utils.ConvertCelsiusToFahrenheit
        ({ Current := { TempC := 25, TempF := 77 } } : WeatherResponse).Current.TempC = 77 := by
      decide
    have hk : utils.ConvertCelsiusToKelvin
        ({ Current := { TempC := 25, TempF := 77 } } : WeatherResponse).Current.TempC =
          298.15 := by
      decide
    rw [e, hf, hk]
  exact ⟨key, by rw [GetTemperatureByCEP_setUpstreamFahrenheit]; exact key⟩

/-- C12: a GET request whose `cep` is not empty but whose normalised form does
not have 8 bytes is answered with status 500 and the JSON body
`{"error":"can not find zipcode: invalid zipcode"}`, a message that is not
empty; the run enters `GetTemperatureByCEP` and `FetchCEPData` and nothing
else, so no external service is contacted. -/
theorem C12_malformed_cep (env : Env) (r : Request) (hm : r.Method = str "GET")
    (hc : r.Query.Get (str "cep") ≠ str "")
    (hlen : (removeSeparators (r.Query.Get (str "cep"))).length ≠ 8) :
    ∃ w, TemperatureHandler env .fresh r =
        (.ret w, [.GetTemperatureByCEP (r.Query.Get (str "cep")),
          .FetchCEPData (r.Query.Get (str "cep"))]) ∧
      w.Code = 500 ∧
      w.Body = [.object [(str "error", .string (str "can not find zipcode: invalid zipcode"))]] ∧
      str "can not find zipcode: invalid zipcode" ≠ str "" ∧
      ∀ e ∈ (TemperatureHandler env .fresh r).2, e.isRequest = false := by
  have hn : (viacep.normalize (r.Query.Get (str "cep"))).length ≠ 8 := by
    rw [normalize_eq_removeSeparators]
    exact hlen
  have hg := GetTemperatureByCEP_postal_failure env _ none invalidZipcode _
    (FetchCEPData_invalid env (r.Query.Get (str "cep")) hn)
  have hh := TemperatureHandler_failure env r hm hc none
    (fmt.Errorf_w (str "can not find zipcode: ") invalidZipcode) (by rw [hg])
  rw [hg] at hh
  refine ⟨_, hh, rfl, ?_, by decide, ?_⟩
  · have hmsg : (fmt.Errorf_w (str "can not find zipcode: ") invalidZipcode).Error =
        str "can not find zipcode: invalid zipcode" := by decide
    simp only [ErrorResponse.toJSON, hmsg]
  · rw [hh]
    intro e he
    simp only [List.mem_cons, List.mem_singleton, List.not_mem_nil, or_false] at he
    rcases he with rfl | rfl <;> rfl

/-- C12 at `GET /temperature?cep=123` in the healthy world. -/
theorem C12_malformed_cep_witness :
    (getRequest (str "123")).Method = str "GET" ∧
    (getRequest (str "123")).Query.Get (str "cep") ≠ str "" ∧
    (removeSeparators ((getRequest (str "123")).Query.Get (str "cep"))).length ≠ 8 ∧
    ∃ w, TemperatureHandler Env.healthy .fresh (getRequest (str "123")) =
        (.ret w, [.GetTemperatureByCEP ((getRequest (str "123")).Query.Get (str "cep")),
          .FetchCEPData ((getRequest (str "123")).Query.Get (str "cep"))]) ∧
      w.Code = 500 ∧
      w.Body = [.object [(str "error", .string (str "can not find zipcode: invalid zipcode"))]] ∧
      str "can not find zipcode: invalid zipcode" ≠ str "" ∧
      ∀ e ∈ (TemperatureHandler Env.healthy .fresh (getRequest (str "123"))).2,
        e.isRequest = false :=
  ⟨rfl, by decide, by decide,
    C12_malformed_cep Env.healthy (getRequest (str "123")) rfl (by decide) (by decide)⟩

/-! ## The place search client -/

/-- The place search once the body has been decoded into `search`. -/
theorem FecthSearch_decoded (env : Env) (city : GoString) (response : Response)
    (body : GoString) (search : List Search)
    (hreq : env.NewRequest (searchURL (strings.ReplaceAll city (str " ") (str "+"))) = none)
    (hkey : env.apiKey ≠ str "")
    (hdo : env.Do (searchURL (strings.ReplaceAll city (str " ") (str "+")))
      [(str "key", env.apiKey)] = .ok response)
    (hbody : response.Body = .ok body)
    (hdec : env.UnmarshalSearch body = .ok search) :
    FecthSearchFromWeatherAPI env city =
      (match search with
        | [] => (none, some (errors.New (str "no cities found for the given search term")))
        | first :: _ => (some first, none),
        [.FecthSearchFromWeatherAPI city,
          .Do (searchURL (strings.ReplaceAll city (str " ") (str "+")))
            [(str "key", env.apiKey)]]) := by
  unfold FecthSearchFromWeatherAPI
  simp only [hreq, hkey, if_false, hdo, hbody, hdec]
  cases search <;> rfl

/-- C13: once the upstream body has been decoded into a sequence of
candidates, `FecthSearchFromWeatherAPI` fails with
`no cities found for the given search term` if and only if the sequence is
empty, and otherwise returns its first candidate, unchanged and with a nil
error, whatever the other candidates are. -/
theorem C13_first_candidate (env : Env) (city : GoString) (response : Response)
    (body : GoString) (search : List Search)
    (hreq : env.NewRequest (searchURL (strings.ReplaceAll city (str " ") (str "+"))) = none)
    (hkey : env.apiKey ≠ str "")
    (hdo : env.Do (searchURL (strings.ReplaceAll city (str " ") (str "+")))
      [(str "key", env.apiKey)] = .ok response)
    (hbody : response.Body = .ok body)
    (hdec : env.UnmarshalSearch body = .ok search) :
    ((FecthSearchFromWeatherAPI env city).1 =
        (none, some (errors.New (str "no cities found for the given search term"))) ↔
      search = []) ∧
    ((∃ err, (FecthSearchFromWeatherAPI env city).1.2 = some err) ↔ search = []) ∧
    (∀ first rest, search = first :: rest →
      (FecthSearchFromWeatherAPI env city).1 = (some first, none)) ∧
    (FecthSearchFromWeatherAPI env city).1.1 = search.head? := by
  rw [FecthSearch_decoded env city response body search hreq hkey hdo hbody hdec]
  cases search with
  | nil => simp
  | cons first rest => simp

/-- C13 at the city `Bom Despacho` in the healthy world, whose search returns
two candidates. -/
theorem C13_first_candidate_witness :
    (FecthSearchFromWeatherAPI Env.healthy (str "Bom Despacho")).1 =
      (some { Id := 1, Name := str "Bom Despacho", Lat := -19.73, Lon := -45.25 }, none) :=
  (C13_first_candidate Env.healthy (str "Bom Despacho")
    { StatusCode := 200, Body := .ok (str "{}") } (str "{}")
    [ { Id := 1, Name := str "Bom Despacho", Lat := -19.73, Lon := -45.25 },
      { Id := 2, Name := str "Bom Jesus", Lat := -9.07, Lon := -44.36 } ]
    rfl (by decide) rfl rfl rfl).2.2.1 _ _ rfl

/-- C14, refuted as stated: without credential, the search for the city name
`Bom<TAB>Despacho` does not fail with `WEATHER_API_KEY is not set`.  The
request is built before the credential is read, `http.NewRequest` refuses the
URL for its control byte, and that error is returned. -/
theorem C14_counterexample :
    Env.noCredential.apiKey = str "" ∧
    FecthSearchFromWeatherAPI Env.noCredential (str "Bom\tDespacho") =
      ((none, some (errors.New (str "net/url: invalid control character in URL"))),
        [.FecthSearchFromWeatherAPI (str "Bom\tDespacho")]) ∧
    (FecthSearchFromWeatherAPI Env.noCredential (str "Bom\tDespacho")).1.2 ≠
      some (errors.New (str "WEATHER_API_KEY is not set")) := by
  refine ⟨by decide, by decide, by decide⟩

/-- C14 as amended: when the API credential is empty,
`FecthSearchFromWeatherAPI` makes no network call and returns no candidate,
for every city name; it fails with `WEATHER_API_KEY is not set` whenever the
request for the city can be built, and with the error of `http.NewRequest`
otherwise. -/
theorem C14_missing_credential (env : Env) (city : GoString) (hkey : env.apiKey = str "") :
    (FecthSearchFromWeatherAPI env city).2 = [.FecthSearchFromWeatherAPI city] ∧
    (∀ e ∈ (FecthSearchFromWeatherAPI env city).2, e.isRequest = false) ∧
    (FecthSearchFromWeatherAPI env city).1.1 = none ∧
    (env.NewRequest (searchURL (strings.ReplaceAll city (str " ") (str "+"))) = none →
      (FecthSearchFromWeatherAPI env city).1 =
        (none, some (errors.New (str "WEATHER_API_KEY is not set")))) ∧
    (∀ err, env.NewRequest (searchURL (strings.ReplaceAll city (str " ") (str "+"))) = some err →
      (FecthSearchFromWeatherAPI env city).1 = (none, some err)) := by
  unfold FecthSearchFromWeatherAPI
  simp only [hkey, if_true]
  split
  · rename_i err heq
    simp [Event.isRequest, heq]
  · rename_i heq
    simp [Event.isRequest, heq]

/-- C14 as amended, at the city `Bom Despacho` in the world without
credential. -/
theorem C14_missing_credential_witness :
    Env.offline.apiKey = str "" ∧
    (FecthSearchFromWeatherAPI Env.offline (str "Bom Despacho")).2 =
      [.FecthSearchFromWeatherAPI (str "Bom Despacho")] ∧
    (FecthSearchFromWeatherAPI Env.offline (str "Bom Despacho")).1 =
      (none, some (errors.New (str "WEATHER_API_KEY is not set"))) :=
  have h := C14_missing_credential Env.offline (str "Bom Despacho") rfl
  ⟨rfl, h.1, h.2.2.2.1 rfl⟩

/-! ## Upstream status codes -/

/-- C15, evaluated where the code departs from it: the weather service
answers 401 with its error document, `FetchWeatherData` does not look at the
status, decodes the document into a snapshot whose fields are all zero and
returns it with a nil error; `GetTemperatureByCEP` then builds the reading
0 °C, 32 °F, 273.15 K from the rejected response. -/
theorem C15_status_ignored :
    Env.weatherRejected.Do (currentURL Env.weatherRejected (-19.73) (-45.25))
        [(str "key", str "secret")] =
      .ok { StatusCode := 401, Body := .ok errorDocument } ∧
    FetchWeatherData Env.weatherRejected (-19.73) (-45.25) =
      ((some {}, none),
        [.FetchWeatherData (-19.73) (-45.25),
          .Do (currentURL Env.weatherRejected (-19.73) (-45.25)) [(str "key", str "secret")]]) ∧
    (GetTemperatureByCEP Env.weatherRejected (str "35620-000")).1 =
      .ret (some { Temp_C := 0, Temp_F := 32, Temp_K := 273.15 }, none) := by
  have h₁ : viacep.FetchCEPData Env.weatherRejected (str "35620-000") =
      ((some { CEP := str "35620-000", Localidade := str "Bom Despacho", UF := str "MG" }, none),
        [.FetchCEPData (str "35620-000"), .Do (str "https://viacep.com.br/ws/35620000/json") []]) := by
    decide
  have h₂ : FecthSearchFromWeatherAPI Env.weatherRejected (str "Bom Despacho") =
      ((some { Id := 1, Name := str "Bom Despacho", Lat := -19.73, Lon := -45.25 }, none),
        [.FecthSearchFromWeatherAPI (str "Bom Despacho"),
          .Do (str "https://api.weatherapi.com/v1/search.json?q=Bom+Despacho")
            [(str "key", str "secret")]]) := rfl
  have h₃ : FetchWeatherData Env.weatherRejected (-19.73) (-45.25) =
      ((some {}, none),
        [.FetchWeatherData (-19.73) (-45.25),
          .Do (currentURL Env.weatherRejected (-19.73) (-45.25)) [(str "key", str "secret")]]) :=
    rfl
  refine ⟨rfl, h₃, ?_⟩
  have e := GetTemperatureByCEP_success Env.weatherRejected (str "35620-000")
    { CEP := str "35620-000", Localidade := str "Bom Despacho", UF := str "MG" } _ h₁
    { Id := 1, Name := str "Bom Despacho", Lat := -19.73, Lon := -45.25 } _ h₂ {} _ h₃
  have hf : utils.ConvertCelsiusToFahrenheit ({} : WeatherResponse).Current.TempC = 32 := by
    decide
  have hk : utils.ConvertCelsiusToKelvin ({} : WeatherResponse).Current.TempC = 273.15 := by
    decide
  rw [e, hf, hk]

/-- `FetchCEPData` when the postal service answers with a status other than
200: the error names the status, the result is the untouched zero value. -/
theorem FetchCEPData_status (env : Env) (cep : GoString) (resp : Response)
    (hlen : (viacep.normalize cep).length = 8)
    (hreq : env.NewRequest (viacep.url (viacep.normalize cep)) = none)
    (hdo : env.Do (viacep.url (viacep.normalize cep)) [] = .ok resp)
    (hstatus : resp.StatusCode ≠ 200) :
    viacep.FetchCEPData env cep =
      ((some {}, some (fmt.Errorf_d (str "status code: ") resp.StatusCode)),
        [.FetchCEPData cep, .Do (viacep.url (viacep.normalize cep)) []]) := by
  unfold viacep.FetchCEPData
  simp only [hlen, ne_eq, not_true_eq_false, if_false, hreq, hdo, hstatus, not_false_eq_true,
    if_true]

/-- C16: for a code that passes the format validation, when the request is
sent and the postal service answers with a status `N` that is not 2xx,
`FetchCEPData` fails with the error `status code: N`; the body is not
decoded: the result is the zero `CEPResponse`, whatever the decoder would
make of the body. -/
theorem C16_upstream_status (env : Env) (cep : GoString) (resp : Response)
    (hlen : (removeSeparators cep).length = 8)
    (hreq : env.NewRequest (viacep.url (removeSeparators cep)) = none)
    (hdo : env.Do (viacep.url (removeSeparators cep)) [] = .ok resp)
    (hstatus : resp.StatusCode < 200 ∨ 300 ≤ resp.StatusCode) :
    (∀ decode : GoString → viacep.CEPResponse × Option GoError,
      viacep.FetchCEPData { env with UnmarshalCEP := decode } cep =
        ((some {}, some (errors.New (str "status code: " ++ str (toString resp.StatusCode)))),
          [.FetchCEPData cep, .Do (viacep.url (removeSeparators cep)) []])) ∧
    viacep.FetchCEPData env cep =
      ((some {}, some (errors.New (str "status code: " ++ str (toString resp.StatusCode)))),
        [.FetchCEPData cep, .Do (viacep.url (removeSeparators cep)) []]) := by
  have hne : resp.StatusCode ≠ 200 := by omega
  rw [← normalize_eq_removeSeparators] at hlen hreq hdo ⊢
  exact ⟨fun decode => FetchCEPData_status { env with UnmarshalCEP := decode } cep resp hlen
    hreq hdo hne, FetchCEPData_status env cep resp hlen hreq hdo hne⟩

/-- C16 at `35620-000` in the world whose postal service answers 404: the
error reads `status code: 404`. -/
theorem C16_upstream_status_witness :
    (viacep.FetchCEPData Env.postalRejected (str "35620-000")).1 =
      (some {}, some (errors.New (str "status code: 404"))) :=
  congrArg Prod.fst
    (C16_upstream_status Env.postalRejected (str "35620-000")
      { StatusCode := 404, Body := .ok (str "{}") } (by decide) rfl rfl
      (Or.inr (by decide))).2

/-! ## The unit converter -/

/-- The sixteen cases of the repository's converter tests hold in the
`float64` arithmetic of this development. -/
theorem converters_test_table :
    (utils.ConvertFahrenheitToCelsius 32 = 0 ∧ utils.ConvertFahrenheitToCelsius 212 = 100 ∧
      utils.ConvertFahrenheitToCelsius 98.6 = 37 ∧
      utils.ConvertFahrenheitToCelsius 0 = -17.77777777777778) ∧
    (utils.ConvertCelsiusToFahrenheit 0 = 32 ∧ utils.ConvertCelsiusToFahrenheit 100 = 212 ∧
      utils.ConvertCelsiusToFahrenheit 37 = 98.6 ∧
      utils.ConvertCelsiusToFahrenheit (-17.77777777777778) = 0) ∧
    (utils.ConvertCelsiusToKelvin 0 = 273.15 ∧ utils.ConvertCelsiusToKelvin 100 = 373.15 ∧
      utils.ConvertCelsiusToKelvin (-273.15) = 0 ∧ utils.ConvertCelsiusToKelvin 25 = 298.15) ∧
    (utils.ConvertKelvinToCelsius 273.15 = 0 ∧ utils.ConvertKelvinToCelsius 373.15 = 100 ∧
      utils.ConvertKelvinToCelsius 0 = -273.15 ∧ utils.ConvertKelvinToCelsius 298.15 = 25) := by
  refine ⟨⟨?_, ?_, ?_, ?_⟩, ⟨?_, ?_, ?_, ?_⟩, ⟨?_, ?_, ?_, ?_⟩, ⟨?_, ?_, ?_, ?_⟩⟩ <;> decide

/-- Rounding shows in the converters: 36.6 °C is 97.88000000000001 °F, -40 °C
is 233.14999999999998 K, 300 K is 26.850000000000023 °C, and 1e308 °C
overflows to the positive infinity. -/
theorem converters_rounding :
    utils.ConvertCelsiusToFahrenheit 36.6 = 97.88000000000001 ∧
    utils.ConvertCelsiusToFahrenheit 36.6 ≠ 97.88 ∧
    utils.ConvertCelsiusToKelvin (-40) = 233.14999999999998 ∧
    utils.ConvertKelvinToCelsius 300 = 26.850000000000023 ∧
    utils.ConvertCelsiusToFahrenheit 1e308 = .inf false ∧
    utils.ConvertCelsiusToKelvin 1e308 = 1e308 := by
  refine ⟨?_, ?_, ?_, ?_, ?_, ?_⟩ <;> decide

/-- The order of the operations matters: the simplified formula `c * 1.8 + 32`
gives 98.60000000000001 at 37 °C, where the converter gives 98.6. -/
theorem converters_operation_order :
    (37 : Float64) * 1.8 + 32 = 98.60000000000001 ∧
    (37 : Float64) * 1.8 + 32 ≠ utils.ConvertCelsiusToFahrenheit 37 := by
  refine ⟨?_, ?_⟩ <;> decide

/-- C17: in `float64` arithmetic the four converters are their reference
formulas, operation by operation, for every input, and take the stated values:
32 at 0, 212 at 100 and 98.6 at 37 for Celsius to Fahrenheit, 273.15 at 0 and
0 at -273.15 for Celsius to Kelvin, and 0 at 32 for Fahrenheit to Celsius. -/
theorem C17_converters :
    (∀ c : Float64, utils.ConvertCelsiusToFahrenheit c = c * 9 / 5 + 32) ∧
    (∀ f : Float64, utils.ConvertFahrenheitToCelsius f = (f - 32) * 5 / 9) ∧
    (∀ c : Float64, utils.ConvertCelsiusToKelvin c = c + 273.15) ∧
    (∀ k : Float64, utils.ConvertKelvinToCelsius k = k - 273.15) ∧
    utils.ConvertCelsiusToFahrenheit 0 = 32 ∧
    utils.ConvertCelsiusToFahrenheit 100 = 212 ∧
    utils.ConvertCelsiusToFahrenheit 37 = 98.6 ∧
    utils.ConvertCelsiusToKelvin 0 = 273.15 ∧
    utils.ConvertCelsiusToKelvin (-273.15) = 0 ∧
    utils.ConvertFahrenheitToCelsius 32 = 0 := by
  refine ⟨fun _ => rfl, fun _ => rfl, fun _ => rfl, fun _ => rfl, ?_, ?_, ?_, ?_, ?_, ?_⟩ <;>
    decide

/-! ### The error of one operation and of the round trip -/

namespace Float64

/-- The binary search keeps the leading bit of `n` between `acc` and
`acc + 2^i`. -/
theorem floorLog2Aux_spec (n : Nat) : ∀ (i acc : Nat), n >>> acc ≠ 0 → n >>> (acc + 2 ^ i) = 0 →
    n >>> (floorLog2Aux n i acc) ≠ 0 ∧ n >>> (floorLog2Aux n i acc + 1) = 0 := by
  intro i
  induction i with
  | zero =>
    intro acc h₁ h₂
    exact ⟨h₁, by simpa using h₂⟩
  | succ i ih =>
    intro acc h₁ h₂
    unfold floorLog2Aux
    by_cases h : n >>> (acc + 2 ^ i) ≠ 0
    · rw [if_pos h]
      apply ih _ h
      have : acc + 2 ^ i + 2 ^ i = acc + 2 ^ (i + 1) := by ring
      rw [this]
      exact h₂
    · rw [if_neg h]
      exact ih _ h₁ (not_not.mp h)

/-- The search finds the leading bit: `2^L ≤ n < 2^(L+1)`. -/
theorem floorLog2_spec (n : Nat) (hpos : 0 < n) (hlt : n < 2 ^ 2 ^ 16) :
    2 ^ floorLog2 n ≤ n ∧ n < 2 ^ (floorLog2 n + 1) := by
  have h := floorLog2Aux_spec n 16 0 (by simpa using hpos.ne')
    (by
      rw [Nat.zero_add, Nat.shiftRight_eq_div_pow]
      exact Nat.div_eq_of_lt hlt)
  rw [Nat.shiftRight_eq_div_pow, Nat.shiftRight_eq_div_pow] at h
  unfold floorLog2
  constructor
  · by_contra hc
    exact h.1 (Nat.div_eq_of_lt (not_le.mp hc))
  · by_contra hc
    have hle : 2 ^ (floorLog2Aux n 16 0 + 1) ≤ n := not_lt.mp hc
    have : 0 < n / 2 ^ (floorLog2Aux n 16 0 + 1) :=
      Nat.div_pos hle (by positivity)
    omega


/-- The fraction `scale num den e` is `num / den * 2^e`. -/
theorem scale_spec (num den : Nat) (e : Int) (hden : 0 < den) :
    0 < (scale num den e).2 ∧
      ((scale num den e).1 : ℚ) / ((scale num den e).2 : ℚ) = (num : ℚ) / den * (2 : ℚ) ^ e := by
  have hd : (den : ℚ) ≠ 0 := by exact_mod_cast hden.ne'
  cases e with
  | ofNat k =>
    refine ⟨hden, ?_⟩
    simp only [scale, Nat.shiftLeft_eq, Int.ofNat_eq_coe, zpow_natCast]
    push_cast
    ring
  | negSucc k =>
    refine ⟨?_, ?_⟩
    · simp only [scale, Nat.shiftLeft_eq]
      positivity
    · simp only [scale, Nat.shiftLeft_eq, zpow_negSucc]
      push_cast
      field_simp

/-- The exponent of the leading bit: `2^e ≤ num / den < 2^(e+1)`. -/
theorem exponentOf_spec (num den : Nat) (hnum : 0 < num) (hden : 0 < den)
    (hn : num < 2 ^ 2 ^ 16) (hd : den < 2 ^ 2 ^ 16) :
    (2 : ℚ) ^ exponentOf num den ≤ (num : ℚ) / den ∧
      (num : ℚ) / den < (2 : ℚ) ^ (exponentOf num den + 1) := by
  obtain ⟨hn₁, hn₂⟩ := floorLog2_spec num hnum hn
  obtain ⟨hd₁, hd₂⟩ := floorLog2_spec den hden hd
  have hdq : (0 : ℚ) < den := by exact_mod_cast hden
  have hn₁' : (2 : ℚ) ^ (floorLog2 num : ℤ) ≤ num := by
    rw [zpow_natCast]; exact_mod_cast hn₁
  have hn₂' : (num : ℚ) < (2 : ℚ) ^ ((floorLog2 num : ℤ) + 1) := by
    have : (2 : ℚ) ^ ((floorLog2 num : ℤ) + 1) = ((2 ^ (floorLog2 num + 1) : ℕ) : ℚ) := by
      push_cast
      rw [← zpow_natCast]
      push_cast
      rfl
    rw [this]; exact_mod_cast hn₂
  have hd₁' : (2 : ℚ) ^ (floorLog2 den : ℤ) ≤ den := by
    rw [zpow_natCast]; exact_mod_cast hd₁
  have hd₂' : (den : ℚ) < (2 : ℚ) ^ ((floorLog2 den : ℤ) + 1) := by
    have : (2 : ℚ) ^ ((floorLog2 den : ℤ) + 1) = ((2 ^ (floorLog2 den + 1) : ℕ) : ℚ) := by
      push_cast
      rw [← zpow_natCast]
      push_cast
      rfl
    rw [this]; exact_mod_cast hd₂
  -- bounds on the quotient
  have two_pos : ∀ z : ℤ, (0 : ℚ) < (2 : ℚ) ^ z := fun z => zpow_pos (by norm_num) z
  have hlow : (2 : ℚ) ^ ((floorLog2 num : ℤ) - (floorLog2 den : ℤ) - 1) < (num : ℚ) / den := by
    rw [lt_div_iff₀ hdq]
    calc (2 : ℚ) ^ ((floorLog2 num : ℤ) - (floorLog2 den : ℤ) - 1) * den
        < (2 : ℚ) ^ ((floorLog2 num : ℤ) - (floorLog2 den : ℤ) - 1) *
            (2 : ℚ) ^ ((floorLog2 den : ℤ) + 1) := by
          exact mul_lt_mul_of_pos_left hd₂' (two_pos _)
      _ = (2 : ℚ) ^ (floorLog2 num : ℤ) := by
          rw [← zpow_add₀ (by norm_num : (2 : ℚ) ≠ 0)]
          congr 1
          ring
      _ ≤ num := hn₁'
  have hhigh : (num : ℚ) / den < (2 : ℚ) ^ ((floorLog2 num : ℤ) - (floorLog2 den : ℤ) + 1) := by
    rw [div_lt_iff₀ hdq]
    calc (num : ℚ) < (2 : ℚ) ^ ((floorLog2 num : ℤ) + 1) := hn₂'
      _ = (2 : ℚ) ^ ((floorLog2 num : ℤ) - (floorLog2 den : ℤ) + 1) *
            (2 : ℚ) ^ (floorLog2 den : ℤ) := by
          rw [← zpow_add₀ (by norm_num : (2 : ℚ) ≠ 0)]
          congr 1
          ring
      _ ≤ (2 : ℚ) ^ ((floorLog2 num : ℤ) - (floorLog2 den : ℤ) + 1) * den :=
          mul_le_mul_of_nonneg_left hd₁' (two_pos _).le
  obtain ⟨hs₁, hs₂⟩ := scale_spec num den (-((floorLog2 num : ℤ) - (floorLog2 den : ℤ))) hden
  unfold exponentOf
  simp only []
  have hs₂q : (0 : ℚ) < ((scale num den (-((floorLog2 num : ℤ) - (floorLog2 den : ℤ)))).2 : ℚ) := by
    exact_mod_cast hs₁
  by_cases htest : (scale num den (-((floorLog2 num : ℤ) - (floorLog2 den : ℤ)))).2 ≤
      (scale num den (-((floorLog2 num : ℤ) - (floorLog2 den : ℤ)))).1
  · rw [if_pos htest]
    refine ⟨?_, hhigh⟩
    have h1 : (1 : ℚ) ≤ (num : ℚ) / den *
        (2 : ℚ) ^ (-((floorLog2 num : ℤ) - (floorLog2 den : ℤ))) := by
      rw [← hs₂, le_div_iff₀ hs₂q, one_mul]
      exact_mod_cast htest
    rw [zpow_neg, ← div_eq_mul_inv, le_div_iff₀ (two_pos _), one_mul] at h1
    exact h1
  · rw [if_neg htest]
    refine ⟨hlow.le, ?_⟩
    have h1 : (num : ℚ) / den *
        (2 : ℚ) ^ (-((floorLog2 num : ℤ) - (floorLog2 den : ℤ))) < 1 := by
      rw [← hs₂, div_lt_iff₀ hs₂q, one_mul]
      exact_mod_cast not_le.mp htest
    rw [zpow_neg, ← div_eq_mul_inv, div_lt_iff₀ (two_pos _), one_mul] at h1
    have : (floorLog2 num : ℤ) - (floorLog2 den : ℤ) - 1 + 1 =
        (floorLog2 num : ℤ) - (floorLog2 den : ℤ) := by ring
    rw [this]
    exact h1

/-- Rounding to an integer moves a fraction by at most one half. -/
theorem roundQuotient_spec (num den : Nat) (hden : 0 < den) :
    |((roundQuotient num den : ℕ) : ℚ) - (num : ℚ) / den| ≤ 1 / 2 := by
  have hdq : (0 : ℚ) < den := by exact_mod_cast hden
  have hsplit : (num : ℚ) = (den : ℚ) * ((num / den : ℕ) : ℚ) + ((num % den : ℕ) : ℚ) := by
    exact_mod_cast (Nat.div_add_mod num den).symm
  have hr : (num % den) < den := Nat.mod_lt _ hden
  have hquot : (num : ℚ) / den = ((num / den : ℕ) : ℚ) + ((num % den : ℕ) : ℚ) / den := by
    rw [div_eq_iff hdq.ne', add_mul, div_mul_cancel₀ _ hdq.ne']
    linarith
  have hrq : ((num % den : ℕ) : ℚ) < den := by exact_mod_cast hr
  have hr0 : (0 : ℚ) ≤ ((num % den : ℕ) : ℚ) := by positivity
  rw [hquot]
  unfold roundQuotient
  simp only []
  have key₁ : 2 * (num % den) < den → ((num % den : ℕ) : ℚ) / den ≤ 1 / 2 := by
    intro h
    rw [div_le_iff₀ hdq]
    have : (2 : ℚ) * ((num % den : ℕ) : ℚ) < den := by exact_mod_cast h
    linarith
  have key₂ : den ≤ 2 * (num % den) → (1 : ℚ) / 2 ≤ ((num % den : ℕ) : ℚ) / den := by
    intro h
    rw [le_div_iff₀ hdq]
    have : (den : ℚ) ≤ (2 : ℚ) * ((num % den : ℕ) : ℚ) := by exact_mod_cast h
    linarith
  have key₃ : ((num % den : ℕ) : ℚ) / den < 1 := by
    rw [div_lt_iff₀ hdq]; linarith
  have key₀ : (0 : ℚ) ≤ ((num % den : ℕ) : ℚ) / den := by positivity
  by_cases h₁ : 2 * (num % den) < den
  · rw [if_pos h₁, abs_le]
    have := key₁ h₁
    constructor <;> linarith
  · rw [if_neg h₁]
    have hge := key₂ (not_lt.mp h₁)
    by_cases h₂ : den < 2 * (num % den)
    · rw [if_pos h₂, abs_le]
      push_cast
      constructor <;> linarith
    · rw [if_neg h₂]
      have hle : ((num % den : ℕ) : ℚ) / den ≤ 1 / 2 := by
        rw [div_le_iff₀ hdq]
        have : (2 : ℚ) * ((num % den : ℕ) : ℚ) ≤ den := by exact_mod_cast not_lt.mp h₂
        linarith
      by_cases h₃ : num / den % 2 = 0
      · rw [if_pos h₃, abs_le]
        constructor <;> linarith
      · rw [if_neg h₃, abs_le]
        push_cast
        constructor <;> linarith


/-- Powers of two are positive. -/
theorem two_zpow_pos (z : ℤ) : (0 : ℚ) < (2 : ℚ) ^ z := zpow_pos (by norm_num) z

/-- Powers of two grow with the exponent. -/
theorem two_zpow_le {a b : ℤ} (h : a ≤ b) : (2 : ℚ) ^ a ≤ (2 : ℚ) ^ b :=
  zpow_le_zpow_right₀ (by norm_num) h

/-- A smaller power of two has the smaller exponent. -/
theorem two_zpow_lt_imp {a b : ℤ} (h : (2 : ℚ) ^ a < (2 : ℚ) ^ b) : a < b := by
  by_contra hc
  exact absurd (two_zpow_le (not_lt.mp hc)) (not_le.mpr h)

/-- Rounding a fraction below `2^1023` yields a finite `float64` whose distance
to the fraction is at most `2^-53` of it plus half the smallest subnormal. -/
theorem round_spec (s : Bool) (num den : Nat) (hden : 0 < den)
    (hn : num < 2 ^ 2 ^ 16) (hd : den < 2 ^ 2 ^ 16)
    (hx : (num : ℚ) / den < (2 : ℚ) ^ (1023 : ℤ)) :
    ∃ m e, round s num den = .finite s m e ∧ m < 2 ^ 53 ∧ -1074 ≤ e ∧ e ≤ 971 ∧
      |(m : ℚ) * (2 : ℚ) ^ e - (num : ℚ) / den| ≤
        (num : ℚ) / den / 2 ^ 53 + (2 : ℚ) ^ (-1075 : ℤ) := by
  by_cases h0 : num = 0
  · subst h0
    refine ⟨0, -1074, by simp [round], by norm_num, le_refl _, by norm_num, ?_⟩
    simp only [Nat.cast_zero, zero_mul, zero_div, sub_zero, abs_zero, zero_add]
    exact (two_zpow_pos _).le
  have hnum : 0 < num := Nat.pos_of_ne_zero h0
  obtain ⟨hE₁, hE₂⟩ := exponentOf_spec num den hnum hden hn hd
  have hxpos : (0 : ℚ) < (num : ℚ) / den := by positivity
  have hE : exponentOf num den ≤ 1022 := by
    have := two_zpow_lt_imp (lt_of_le_of_lt hE₁ hx)
    omega
  unfold round
  rw [if_neg h0]
  simp only []
  generalize hq : max (exponentOf num den - 52) (-1074) = q
  have hq₁ : exponentOf num den - 52 ≤ q := by rw [← hq]; exact le_max_left _ _
  have hq₂ : -1074 ≤ q := by rw [← hq]; exact le_max_right _ _
  have hq₃ : q ≤ 970 := by rw [← hq]; exact max_le (by omega) (by norm_num)
  have hq₄ : q = exponentOf num den - 52 ∨ q = -1074 := by
    rw [← hq]
    rcases le_total (exponentOf num den - 52) (-1074) with h | h
    · right; exact max_eq_right h
    · left; exact max_eq_left h
  obtain ⟨ht₁, ht₂⟩ := scale_spec num den (-q) hden
  have hn' := roundQuotient_spec (scale num den (-q)).1 (scale num den (-q)).2 ht₁
  rw [ht₂] at hn'
  generalize roundQuotient (scale num den (-q)).1 (scale num den (-q)).2 = n at hn' ⊢
  -- the scaled value is below 2^53
  have hy : (num : ℚ) / den * (2 : ℚ) ^ (-q) < (2 : ℚ) ^ (53 : ℤ) := by
    calc (num : ℚ) / den * (2 : ℚ) ^ (-q)
        < (2 : ℚ) ^ (exponentOf num den + 1) * (2 : ℚ) ^ (-q) :=
          mul_lt_mul_of_pos_right hE₂ (two_zpow_pos _)
      _ = (2 : ℚ) ^ (exponentOf num den + 1 - q) := by
          rw [← zpow_add₀ (by norm_num : (2 : ℚ) ≠ 0)]
          congr 1
      _ ≤ (2 : ℚ) ^ (53 : ℤ) := two_zpow_le (by omega)
  have hnle : n ≤ 2 ^ 53 := by
    have h1 : (n : ℚ) < (2 : ℚ) ^ (53 : ℤ) + 1 := by
      have := (abs_le.mp hn').2
      linarith
    have h2 : (n : ℚ) < 9007199254740993 := by
      have : (2 : ℚ) ^ (53 : ℤ) = 9007199254740992 := by norm_num
      linarith
    have h3 : n < 9007199254740993 := by exact_mod_cast h2
    have h4 : (2 : ℕ) ^ 53 = 9007199254740992 := by norm_num
    omega
  -- the error in terms of the quantum
  have hxq : (num : ℚ) / den = (num : ℚ) / den * (2 : ℚ) ^ (-q) * (2 : ℚ) ^ q := by
    rw [mul_assoc, ← zpow_add₀ (by norm_num : (2 : ℚ) ≠ 0)]
    simp
  have herr : |(n : ℚ) * (2 : ℚ) ^ q - (num : ℚ) / den| ≤ (2 : ℚ) ^ q / 2 := by
    have : (n : ℚ) * (2 : ℚ) ^ q - (num : ℚ) / den =
        ((n : ℚ) - (num : ℚ) / den * (2 : ℚ) ^ (-q)) * (2 : ℚ) ^ q := by
      rw [sub_mul, ← hxq]
    rw [this, abs_mul, abs_of_pos (two_zpow_pos q)]
    calc |(n : ℚ) - (num : ℚ) / den * (2 : ℚ) ^ (-q)| * (2 : ℚ) ^ q
        ≤ 1 / 2 * (2 : ℚ) ^ q := mul_le_mul_of_nonneg_right hn' (two_zpow_pos q).le
      _ = (2 : ℚ) ^ q / 2 := by ring
  have hquant : (2 : ℚ) ^ q / 2 ≤ (num : ℚ) / den / 2 ^ 53 + (2 : ℚ) ^ (-1075 : ℤ) := by
    rcases hq₄ with h | h
    · have h1 : (2 : ℚ) ^ q / 2 = (2 : ℚ) ^ exponentOf num den / 2 ^ 53 := by
        rw [h, zpow_sub₀ (by norm_num : (2 : ℚ) ≠ 0)]
        norm_num
        ring
      rw [h1]
      have := div_le_div_of_nonneg_right hE₁ (by positivity : (0 : ℚ) ≤ 2 ^ 53)
      have h2 := (two_zpow_pos (-1075)).le
      linarith
    · have h1 : (2 : ℚ) ^ q / 2 = (2 : ℚ) ^ (-1075 : ℤ) := by
        rw [h]
        rw [show (-1075 : ℤ) = -1074 - 1 by norm_num, zpow_sub₀ (by norm_num : (2 : ℚ) ≠ 0)]
        norm_num
      rw [h1]
      have : (0 : ℚ) ≤ (num : ℚ) / den / 2 ^ 53 := by positivity
      linarith
  by_cases hc : n = 2 ^ 53
  · rw [if_pos hc, if_pos hc, if_neg (by omega)]
    refine ⟨2 ^ 52, q + 1, rfl, by norm_num, by omega, by omega, ?_⟩
    have : ((2 ^ 52 : ℕ) : ℚ) * (2 : ℚ) ^ (q + 1) = (n : ℚ) * (2 : ℚ) ^ q := by
      rw [hc, zpow_add₀ (by norm_num : (2 : ℚ) ≠ 0)]
      push_cast
      ring
    rw [this]
    exact le_trans herr hquant
  · rw [if_neg hc, if_neg hc, if_neg (by omega)]
    exact ⟨n, q, rfl, by omega, hq₂, by omega, le_trans herr hquant⟩


/-- The value of a finite `float64`. -/
theorem toRat_finite (s : Bool) (m : Nat) (e : Int) :
    toRat (.finite s m e) = signOf s * (m : ℚ) * (2 : ℚ) ^ e := rfl

/-- A sign factor has magnitude one. -/
theorem abs_signOf (s : Bool) : |signOf s| = 1 := by
  cases s <;> simp [signOf]

/-- The sign of a product. -/
theorem signOf_xor (s t : Bool) : signOf (xor s t) = signOf s * signOf t := by
  cases s <;> cases t <;> simp [signOf]

/-- Rounding with a sign, in terms of `Approx`. -/
theorem round_approx (s : Bool) (num den : Nat) (hden : 0 < den)
    (hn : num < 2 ^ 2 ^ 16) (hd : den < 2 ^ 2 ^ 16)
    (hx : (num : ℚ) / den < (2 : ℚ) ^ (1023 : ℤ)) :
    Approx (round s num den) (signOf s * ((num : ℚ) / den)) := by
  obtain ⟨m, e, hr, hm, he₁, he₂, herr⟩ := round_spec s num den hden hn hd hx
  rw [hr]
  refine ⟨⟨hm, he₁, he₂⟩, ?_⟩
  have hpos : (0 : ℚ) ≤ (num : ℚ) / den := by positivity
  rw [toRat_finite, mul_assoc, ← mul_sub, abs_mul, abs_signOf, one_mul, abs_mul, abs_signOf,
    one_mul, abs_of_nonneg hpos]
  exact herr

/-- Scaling keeps numerator and denominator within the reach of `floorLog2`. -/
theorem scale_lt (num den : Nat) (e : Int) (B C : Nat) (hnum : num < 2 ^ B) (hden : den < 2 ^ B)
    (he : e.natAbs ≤ C) (hBC : B + C ≤ 2 ^ 16) :
    (scale num den e).1 < 2 ^ 2 ^ 16 ∧ (scale num den e).2 < 2 ^ 2 ^ 16 := by
  have hpow : ∀ k : Nat, k ≤ C → ∀ a : Nat, a < 2 ^ B → a * 2 ^ k < 2 ^ 2 ^ 16 := by
    intro k hk a ha
    calc a * 2 ^ k < 2 ^ B * 2 ^ k := Nat.mul_lt_mul_of_pos_right ha (by positivity)
      _ = 2 ^ (B + k) := (pow_add 2 B k).symm
      _ ≤ 2 ^ 2 ^ 16 := Nat.pow_le_pow_right (by norm_num) (by omega)
  have hplain : ∀ a : Nat, a < 2 ^ B → a < 2 ^ 2 ^ 16 := fun a ha =>
    lt_of_lt_of_le ha (Nat.pow_le_pow_right (by norm_num) (by omega))
  cases e with
  | ofNat k =>
    simp only [scale, Nat.shiftLeft_eq]
    exact ⟨hpow k (by simpa using he) num hnum, hplain den hden⟩
  | negSucc k =>
    simp only [scale, Nat.shiftLeft_eq]
    exact ⟨hplain num hnum, hpow (k + 1) (by simpa using he) den hden⟩

/-- The product of two finite `float64`s is the rounded exact product. -/
theorem mul_spec (x y : Float64) (hx : IsDouble x) (hy : IsDouble y)
    (hb : |toRat x * toRat y| < (2 : ℚ) ^ (1023 : ℤ)) :
    Approx (x * y) (toRat x * toRat y) := by
  cases x with
  | inf s => exact absurd hx id
  | nan => exact absurd hx id
  | finite s m e =>
    cases y with
    | inf t => exact absurd hy id
    | nan => exact absurd hy id
    | finite t n f =>
      obtain ⟨hm, he₁, he₂⟩ := hx
      obtain ⟨hn, hf₁, hf₂⟩ := hy
      show Approx (round (xor s t) (scale (m * n) 1 (e + f)).1 (scale (m * n) 1 (e + f)).2) _
      obtain ⟨hs₁, hs₂⟩ := scale_spec (m * n) 1 (e + f) (by norm_num)
      have hmn : m * n < 2 ^ 106 := by
        calc m * n < 2 ^ 53 * 2 ^ 53 := Nat.mul_lt_mul'' hm hn
          _ = 2 ^ 106 := by norm_num
      obtain ⟨hz₁, hz₂⟩ := scale_lt (m * n) 1 (e + f) 106 2200 hmn
        (Nat.one_lt_two_pow (by norm_num)) (by omega) (by norm_num)
      have hval : toRat (.finite s m e) * toRat (.finite t n f) =
          signOf (xor s t) * (((scale (m * n) 1 (e + f)).1 : ℚ) / (scale (m * n) 1 (e + f)).2) := by
        rw [hs₂, toRat_finite, toRat_finite, signOf_xor, zpow_add₀ (by norm_num : (2 : ℚ) ≠ 0)]
        push_cast
        ring
      rw [hval] at hb ⊢
      apply round_approx _ _ _ hs₁ hz₁ hz₂
      rw [abs_mul, abs_signOf, one_mul, abs_of_nonneg (by positivity)] at hb
      exact hb


/-- The quotient of two finite `float64`s is the rounded exact quotient. -/
theorem div_spec (x y : Float64) (hx : IsDouble x) (hy : IsDouble y) (hy0 : toRat y ≠ 0)
    (hb : |toRat x / toRat y| < (2 : ℚ) ^ (1023 : ℤ)) :
    Approx (x / y) (toRat x / toRat y) := by
  cases x with
  | inf s => exact absurd hx id
  | nan => exact absurd hx id
  | finite s m e =>
    cases y with
    | inf t => exact absurd hy id
    | nan => exact absurd hy id
    | finite t n f =>
      obtain ⟨hm, he₁, he₂⟩ := hx
      obtain ⟨hn, hf₁, hf₂⟩ := hy
      have hn0 : n ≠ 0 := by
        intro h
        apply hy0
        rw [toRat_finite, h]
        simp
      have hnpos : 0 < n := Nat.pos_of_ne_zero hn0
      show Approx (if n = 0 then (if m = 0 then Float64.nan else Float64.inf (xor s t))
        else round (xor s t) (scale m n (e - f)).1 (scale m n (e - f)).2) _
      rw [if_neg hn0]
      obtain ⟨hs₁, hs₂⟩ := scale_spec m n (e - f) hnpos
      obtain ⟨hz₁, hz₂⟩ := scale_lt m n (e - f) 53 2200 hm hn (by omega) (by norm_num)
      have hnq : (n : ℚ) ≠ 0 := by exact_mod_cast hn0
      have hs0 : signOf t ≠ 0 := by cases t <;> simp [signOf]
      have hval : toRat (.finite s m e) / toRat (.finite t n f) =
          signOf (xor s t) * (((scale m n (e - f)).1 : ℚ) / (scale m n (e - f)).2) := by
        rw [hs₂, toRat_finite, toRat_finite, signOf_xor, zpow_sub₀ (by norm_num : (2 : ℚ) ≠ 0)]
        have h2 : (2 : ℚ) ^ f ≠ 0 := (two_zpow_pos f).ne'
        have hsq : signOf t * signOf t = 1 := by cases t <;> simp [signOf]
        field_simp
        have : signOf s * ↑m * 2 ^ e * (↑n * 2 ^ f) =
            signOf s * ↑m * 2 ^ e * (↑n * 2 ^ f) * (signOf t * signOf t) := by rw [hsq, mul_one]
        rw [this]
        ring
      rw [hval] at hb ⊢
      apply round_approx _ _ _ hs₁ hz₁ hz₂
      rw [abs_mul, abs_signOf, one_mul, abs_of_nonneg (by positivity)] at hb
      exact hb


/-- Aligning a significand to a smaller exponent keeps the value. -/
theorem shift_value (m : Nat) (e q : Int) (hq : q ≤ e) :
    ((m <<< (e - q).toNat : ℕ) : ℚ) * (2 : ℚ) ^ q = (m : ℚ) * (2 : ℚ) ^ e := by
  rw [Nat.shiftLeft_eq]
  push_cast
  have h : ((e - q).toNat : ℤ) = e - q := Int.toNat_of_nonneg (by omega)
  rw [← zpow_natCast, h, mul_assoc, ← zpow_add₀ (by norm_num : (2 : ℚ) ≠ 0)]
  congr 2
  ring

/-- An aligned significand stays below `2^2100`. -/
theorem shift_lt (m : Nat) (e q : Int) (hm : m < 2 ^ 53) (h₁ : -1074 ≤ q) (h₂ : e ≤ 971) :
    m <<< (e - q).toNat < 2 ^ 2100 := by
  rw [Nat.shiftLeft_eq]
  calc m * 2 ^ (e - q).toNat < 2 ^ 53 * 2 ^ (e - q).toNat :=
        Nat.mul_lt_mul_of_pos_right hm (by positivity)
    _ = 2 ^ (53 + (e - q).toNat) := (pow_add 2 _ _).symm
    _ ≤ 2 ^ 2100 := Nat.pow_le_pow_right (by norm_num) (by omega)

/-- The sum of two finite `float64`s is the rounded exact sum. -/
theorem add_spec (x y : Float64) (hx : IsDouble x) (hy : IsDouble y)
    (hb : |toRat x + toRat y| < (2 : ℚ) ^ (1023 : ℤ)) :
    Approx (x + y) (toRat x + toRat y) := by
  cases x with
  | inf s => exact absurd hx id
  | nan => exact absurd hx id
  | finite s m e =>
    cases y with
    | inf t => exact absurd hy id
    | nan => exact absurd hy id
    | finite t n f =>
      obtain ⟨hm, he₁, he₂⟩ := hx
      obtain ⟨hn, hf₁, hf₂⟩ := hy
      show Approx (Float64.add (.finite s m e) (.finite t n f)) _
      simp only [Float64.add]
      have hq₁ : min e f ≤ e := min_le_left _ _
      have hq₂ : min e f ≤ f := min_le_right _ _
      have hq₃ : -1074 ≤ min e f := le_min he₁ hf₁
      have hq₄ : min e f ≤ 971 := le_trans hq₁ he₂
      have hA := shift_value m e (min e f) hq₁
      have hB := shift_value n f (min e f) hq₂
      have hAlt := shift_lt m e (min e f) hm hq₃ he₂
      have hBlt := shift_lt n f (min e f) hn hq₃ hf₂
      generalize m <<< (e - min e f).toNat = A at hA hAlt ⊢
      generalize n <<< (f - min e f).toNat = B at hB hBlt ⊢
      generalize min e f = q at *
      have ha : (((if s then -(A : ℤ) else (A : ℤ)) : ℤ) : ℚ) = signOf s * (A : ℚ) := by
        cases s <;> simp [signOf]
      have hb' : (((if t then -(B : ℤ) else (B : ℤ)) : ℤ) : ℚ) = signOf t * (B : ℚ) := by
        cases t <;> simp [signOf]
      have hexact : toRat (.finite s m e) + toRat (.finite t n f) =
          ((((if s then -(A : ℤ) else (A : ℤ)) + (if t then -(B : ℤ) else (B : ℤ)) : ℤ)) : ℚ) *
            (2 : ℚ) ^ q := by
        rw [toRat_finite, toRat_finite, Int.cast_add, ha, hb', mul_assoc (signOf s),
          mul_assoc (signOf t), ← hA, ← hB]
        ring
      generalize hc : (if s then -(A : ℤ) else (A : ℤ)) + (if t then -(B : ℤ) else (B : ℤ)) = c
        at hexact ⊢
      have hcabs : c.natAbs < 2 ^ 2101 := by
        have h₁ : c.natAbs ≤ A + B := by
          rw [← hc]
          cases s <;> cases t <;> simp <;> omega
        calc c.natAbs ≤ A + B := h₁
          _ < 2 ^ 2100 + 2 ^ 2100 := by omega
          _ = 2 ^ 2101 := by norm_num
      by_cases hc0 : c = 0
      · rw [if_pos hc0]
        refine ⟨⟨by norm_num, le_refl _, by norm_num⟩, ?_⟩
        rw [hexact, hc0, toRat_finite]
        simp only [Nat.cast_zero, mul_zero, zero_mul, Int.cast_zero, sub_self, abs_zero, zero_div,
          zero_add]
        exact (two_zpow_pos _).le
      · rw [if_neg hc0]
        obtain ⟨hs₁, hs₂⟩ := scale_spec c.natAbs 1 q (by norm_num)
        obtain ⟨hz₁, hz₂⟩ := scale_lt c.natAbs 1 q 2101 1100 hcabs
          (Nat.one_lt_two_pow (by norm_num)) (by omega) (by norm_num)
        have hsign : signOf (decide (c < 0)) * ((c.natAbs : ℕ) : ℚ) = (c : ℚ) := by
          by_cases hneg : c < 0
          · simp only [hneg, decide_True, signOf, if_true]
            have h2 : ((c.natAbs : ℕ) : ℚ) = -(c : ℚ) := by
              rw [Nat.cast_natAbs, abs_of_neg hneg]
              push_cast
              ring
            rw [h2]; ring
          · simp only [hneg, decide_False, signOf]
            have h2 : ((c.natAbs : ℕ) : ℚ) = (c : ℚ) := by
              rw [Nat.cast_natAbs, abs_of_nonneg (not_lt.mp hneg)]
            rw [h2]; simp
        have hval : toRat (.finite s m e) + toRat (.finite t n f) =
            signOf (decide (c < 0)) *
              (((scale c.natAbs 1 q).1 : ℚ) / (scale c.natAbs 1 q).2) := by
          rw [hexact, hs₂, ← hsign]
          push_cast
          ring
        rw [hval] at hb ⊢
        apply round_approx _ _ _ hs₁ hz₁ hz₂
        rw [abs_mul, abs_signOf, one_mul, abs_of_nonneg (by positivity)] at hb
        exact hb

/-- Negation is exact. -/
theorem isDouble_neg (x : Float64) (hx : IsDouble x) : IsDouble (-x) ∧ toRat (-x) = -toRat x := by
  cases x with
  | inf s => exact absurd hx id
  | nan => exact absurd hx id
  | finite s m e =>
    refine ⟨hx, ?_⟩
    show toRat (.finite (!s) m e) = _
    rw [toRat_finite, toRat_finite]
    cases s <;> simp [signOf]

/-- The difference of two finite `float64`s is the rounded exact difference. -/
theorem sub_spec (x y : Float64) (hx : IsDouble x) (hy : IsDouble y)
    (hb : |toRat x - toRat y| < (2 : ℚ) ^ (1023 : ℤ)) :
    Approx (x - y) (toRat x - toRat y) := by
  obtain ⟨hny, hnv⟩ := isDouble_neg y hy
  have h := add_spec x (-y) hx hny (by rw [hnv, ← sub_eq_add_neg]; exact hb)
  rw [hnv, ← sub_eq_add_neg] at h
  exact h


/-- The constant 9. -/
theorem const_nine : IsDouble (9 : Float64) ∧ toRat (9 : Float64) = 9 := by
  have h : (9 : Float64) = .finite false 5066549580791808 (-49) := by decide
  rw [h]
  refine ⟨⟨by norm_num, by norm_num, by norm_num⟩, ?_⟩
  rw [toRat_finite]
  norm_num [signOf]

/-- The constant 5. -/
theorem const_five : IsDouble (5 : Float64) ∧ toRat (5 : Float64) = 5 := by
  have h : (5 : Float64) = .finite false 5629499534213120 (-50) := by decide
  rw [h]
  refine ⟨⟨by norm_num, by norm_num, by norm_num⟩, ?_⟩
  rw [toRat_finite]
  norm_num [signOf]

/-- The constant 32. -/
theorem const_thirty_two : IsDouble (32 : Float64) ∧ toRat (32 : Float64) = 32 := by
  have h : (32 : Float64) = .finite false 4503599627370496 (-47) := by decide
  rw [h]
  refine ⟨⟨by norm_num, by norm_num, by norm_num⟩, ?_⟩
  rw [toRat_finite]
  norm_num [signOf]

/-- The round trip of every finite `float64` up to `2^1000` in magnitude is a
finite `float64` within `(|c| + 4) / 2^50` of `c`. -/
theorem round_trip_close (c : Float64) (hc : IsDouble c)
    (hr : |toRat c| ≤ (2 : ℚ) ^ (1000 : ℤ)) :
    IsDouble (utils.ConvertFahrenheitToCelsius (utils.ConvertCelsiusToFahrenheit c)) ∧
      |toRat (utils.ConvertFahrenheitToCelsius (utils.ConvertCelsiusToFahrenheit c)) - toRat c| ≤
        (|toRat c| + 4) / 2 ^ 50 := by
  obtain ⟨h9, v9⟩ := const_nine
  obtain ⟨h5, v5⟩ := const_five
  obtain ⟨h32, v32⟩ := const_thirty_two
  show IsDouble ((c * 9 / 5 + 32 - 32) * 5 / 9) ∧
    |toRat ((c * 9 / 5 + 32 - 32) * 5 / 9) - toRat c| ≤ (|toRat c| + 4) / 2 ^ 50
  -- the two large constants, kept symbolic
  have hK : (2 : ℚ) ^ (1023 : ℤ) = 2 ^ 23 * (2 : ℚ) ^ (1000 : ℤ) := by
    rw [show (1023 : ℤ) = 23 + 1000 by norm_num, zpow_add₀ (by norm_num : (2 : ℚ) ≠ 0)]
    norm_num
  have hM : (1 : ℚ) ≤ (2 : ℚ) ^ (1000 : ℤ) := by
    have := two_zpow_le (show (0 : ℤ) ≤ 1000 by norm_num)
    simpa using this
  have hη₀ : (0 : ℚ) < (2 : ℚ) ^ (-1075 : ℤ) := two_zpow_pos _
  have hη₁ : (2 : ℚ) ^ (-1075 : ℤ) ≤ 1 / 2 ^ 100 := by
    have := two_zpow_le (show (-1075 : ℤ) ≤ -100 by norm_num)
    have h2 : (2 : ℚ) ^ (-100 : ℤ) = 1 / 2 ^ 100 := by
      rw [zpow_neg, one_div]
      norm_num
    rw [h2] at this
    exact this
  generalize (2 : ℚ) ^ (1000 : ℤ) = M at hr hM hK
  generalize hKdef : (2 : ℚ) ^ (1023 : ℤ) = K at hK
  generalize hηdef : (2 : ℚ) ^ (-1075 : ℤ) = η at hη₀ hη₁
  generalize hx : toRat c = x at hr ⊢
  have ht₀ : 0 ≤ |x| := abs_nonneg x
  have hx₁ : x ≤ |x| := le_abs_self x
  have hx₂ : -|x| ≤ x := neg_abs_le x
  generalize |x| = t at *
  have hu : (0 : ℚ) ≤ 2 ^ 53 := by positivity
  -- c * 9
  have b1 : |x * 9| ≤ 9 * t := by
    rw [abs_le]; constructor <;> linarith
  have s1 := mul_spec c 9 hc h9
    (by rw [hx, v9, hKdef]; exact lt_of_le_of_lt b1 (by linarith))
  rw [hx, v9] at s1
  obtain ⟨d1, e1⟩ := s1
  rw [hηdef] at e1
  generalize hv1 : toRat (c * 9) = v1 at e1
  have e1b : |v1 - x * 9| ≤ 9 * t / 2 ^ 53 + η :=
    le_trans e1 (by linarith [div_le_div_of_nonneg_right b1 hu])
  obtain ⟨l1, u1⟩ := abs_le.mp e1b
  -- / 5
  have b2 : |v1 / 5| ≤ 2 * t + 1 := by
    rw [abs_le]; constructor <;> linarith
  have s2 := div_spec (c * 9) 5 d1 h5 (by rw [v5]; norm_num)
    (by rw [hv1, v5, hKdef]; exact lt_of_le_of_lt b2 (by linarith))
  rw [hv1, v5] at s2
  obtain ⟨d2, e2⟩ := s2
  rw [hηdef] at e2
  generalize hv2 : toRat (c * 9 / 5) = v2 at e2
  have e2b : |v2 - v1 / 5| ≤ (2 * t + 1) / 2 ^ 53 + η :=
    le_trans e2 (by linarith [div_le_div_of_nonneg_right b2 hu])
  obtain ⟨l2, u2⟩ := abs_le.mp e2b
  -- + 32
  have b3 : |v2 + 32| ≤ 2 * t + 34 := by
    rw [abs_le]; constructor <;> linarith
  have s3 := add_spec (c * 9 / 5) 32 d2 h32
    (by rw [hv2, v32, hKdef]; exact lt_of_le_of_lt b3 (by linarith))
  rw [hv2, v32] at s3
  obtain ⟨d3, e3⟩ := s3
  rw [hηdef] at e3
  generalize hv3 : toRat (c * 9 / 5 + 32) = v3 at e3
  have e3b : |v3 - (v2 + 32)| ≤ (2 * t + 34) / 2 ^ 53 + η :=
    le_trans e3 (by linarith [div_le_div_of_nonneg_right b3 hu])
  obtain ⟨l3, u3⟩ := abs_le.mp e3b
  -- - 32
  have b4 : |v3 - 32| ≤ 2 * t + 1 := by
    rw [abs_le]; constructor <;> linarith
  have s4 := sub_spec (c * 9 / 5 + 32) 32 d3 h32
    (by rw [hv3, v32, hKdef]; exact lt_of_le_of_lt b4 (by linarith))
  rw [hv3, v32] at s4
  obtain ⟨d4, e4⟩ := s4
  rw [hηdef] at e4
  generalize hv4 : toRat (c * 9 / 5 + 32 - 32) = v4 at e4
  have e4b : |v4 - (v3 - 32)| ≤ (2 * t + 1) / 2 ^ 53 + η :=
    le_trans e4 (by linarith [div_le_div_of_nonneg_right b4 hu])
  obtain ⟨l4, u4⟩ := abs_le.mp e4b
  -- * 5
  have b5 : |v4 * 5| ≤ 10 * t + 1 := by
    rw [abs_le]; constructor <;> linarith
  have s5 := mul_spec (c * 9 / 5 + 32 - 32) 5 d4 h5
    (by rw [hv4, v5, hKdef]; exact lt_of_le_of_lt b5 (by linarith))
  rw [hv4, v5] at s5
  obtain ⟨d5, e5⟩ := s5
  rw [hηdef] at e5
  generalize hv5 : toRat ((c * 9 / 5 + 32 - 32) * 5) = v5' at e5
  have e5b : |v5' - v4 * 5| ≤ (10 * t + 1) / 2 ^ 53 + η :=
    le_trans e5 (by linarith [div_le_div_of_nonneg_right b5 hu])
  obtain ⟨l5, u5⟩ := abs_le.mp e5b
  -- / 9
  have b6 : |v5' / 9| ≤ 2 * t + 1 := by
    rw [abs_le]; constructor <;> linarith
  have s6 := div_spec ((c * 9 / 5 + 32 - 32) * 5) 9 d5 h9 (by rw [v9]; norm_num)
    (by rw [hv5, v9, hKdef]; exact lt_of_le_of_lt b6 (by linarith))
  rw [hv5, v9] at s6
  obtain ⟨d6, e6⟩ := s6
  rw [hηdef] at e6
  generalize hv6 : toRat ((c * 9 / 5 + 32 - 32) * 5 / 9) = v6 at e6
  have e6b : |v6 - v5' / 9| ≤ (2 * t + 1) / 2 ^ 53 + η :=
    le_trans e6 (by linarith [div_le_div_of_nonneg_right b6 hu])
  obtain ⟨l6, u6⟩ := abs_le.mp e6b
  refine ⟨d6, ?_⟩
  rw [abs_le]
  constructor <;> linarith

end Float64

/-- C18, refuted as stated: in `float64` arithmetic the round trip of 0.1 °C
returns 0.09999999999999984, that of 1 °C returns 0.9999999999999984, that of
1e-15 °C returns 0, and that of 1e308 °C returns the positive infinity. -/
theorem C18_counterexample :
    utils.ConvertFahrenheitToCelsius (utils.ConvertCelsiusToFahrenheit 0.1) =
      0.09999999999999984 ∧
    utils.ConvertFahrenheitToCelsius (utils.ConvertCelsiusToFahrenheit 0.1) ≠ 0.1 ∧
    utils.ConvertFahrenheitToCelsius (utils.ConvertCelsiusToFahrenheit 1) =
      0.9999999999999984 ∧
    utils.ConvertFahrenheitToCelsius (utils.ConvertCelsiusToFahrenheit 1e-15) = 0 ∧
    utils.ConvertFahrenheitToCelsius (utils.ConvertCelsiusToFahrenheit 1e308) = .inf false := by
  refine ⟨?_, ?_, ?_, ?_, ?_⟩ <;> decide

/-- The literal `0.1` as a `float64`. -/
theorem tenth_isDouble :
    (0.1 : Float64).IsDouble ∧ |(0.1 : Float64).toRat| ≤ (2 : ℚ) ^ (1000 : ℤ) := by
  have h : (0.1 : Float64) = .finite false 7205759403792794 (-56) := by decide
  rw [h]
  refine ⟨⟨by norm_num, by norm_num, by norm_num⟩, ?_⟩
  have h1 : |(Float64.finite false 7205759403792794 (-56)).toRat| ≤ 1 := by
    rw [Float64.toRat_finite, abs_le]
    constructor <;> norm_num [Float64.signOf]
  have h2 : (1 : ℚ) ≤ (2 : ℚ) ^ (1000 : ℤ) := by
    have := Float64.two_zpow_le (show (0 : ℤ) ≤ 1000 by norm_num)
    simpa using this
  exact le_trans h1 h2

/-- C18 as amended: in `float64` arithmetic the round trip is close to the
identity and exact at the three witnesses.  For every finite `float64` `c` of
magnitude at most `2^1000`, `ConvertFahrenheitToCelsius` of
`ConvertCelsiusToFahrenheit(c)` is a finite `float64` that differs from `c` by
at most `(|c| + 4) / 2^50`, four float epsilons of `|c| + 4`; and 0 °C goes to
32 °F and back, 100 °C to 212 °F and back, 37 °C to 98.6 °F and back. -/
theorem C18_round_trip_close :
    (∀ c : Float64, c.IsDouble → |c.toRat| ≤ (2 : ℚ) ^ (1000 : ℤ) →
      (utils.ConvertFahrenheitToCelsius (utils.ConvertCelsiusToFahrenheit c)).IsDouble ∧
      |(utils.ConvertFahrenheitToCelsius (utils.ConvertCelsiusToFahrenheit c)).toRat -
          c.toRat| ≤ (|c.toRat| + 4) / 2 ^ 50) ∧
    (utils.ConvertCelsiusToFahrenheit 0 = 32 ∧ utils.ConvertFahrenheitToCelsius 32 = 0 ∧
      utils.ConvertFahrenheitToCelsius (utils.ConvertCelsiusToFahrenheit 0) = 0) ∧
    (utils.ConvertCelsiusToFahrenheit 100 = 212 ∧ utils.ConvertFahrenheitToCelsius 212 = 100 ∧
      utils.ConvertFahrenheitToCelsius (utils.ConvertCelsiusToFahrenheit 100) = 100) ∧
    (utils.ConvertCelsiusToFahrenheit 37 = 98.6 ∧ utils.ConvertFahrenheitToCelsius 98.6 = 37 ∧
      utils.ConvertFahrenheitToCelsius (utils.ConvertCelsiusToFahrenheit 37) = 37) := by
  refine ⟨fun c hc hr => Float64.round_trip_close c hc hr, ⟨?_, ?_, ?_⟩, ⟨?_, ?_, ?_⟩,
    ⟨?_, ?_, ?_⟩⟩ <;> decide

/-- C18 as amended, at 0.1 °C: the round trip, which returns
0.09999999999999984, is within `(|0.1| + 4) / 2^50` of 0.1. -/
theorem C18_round_trip_close_witness :
    (0.1 : Float64).IsDouble ∧ |(0.1 : Float64).toRat| ≤ (2 : ℚ) ^ (1000 : ℤ) ∧
    (utils.ConvertFahrenheitToCelsius (utils.ConvertCelsiusToFahrenheit 0.1)).IsDouble ∧
    |(utils.ConvertFahrenheitToCelsius (utils.ConvertCelsiusToFahrenheit 0.1)).toRat -
        (0.1 : Float64).toRat| ≤ (|(0.1 : Float64).toRat| + 4) / 2 ^ 50 :=
  ⟨tenth_isDouble.1, tenth_isDouble.2,
    C18_round_trip_close.1 0.1 tenth_isDouble.1 tenth_isDouble.2⟩

/-! ## The search query -/

/-- Replacing one byte by another with `strings.ReplaceAll` is a map. -/
theorem ReplaceAllAux_substitute (b c : UInt8) (s : GoString) :
    strings.ReplaceAllAux [b] [c] 0 s = s.map (fun x => if x = b then c else x) := by
  induction s with
  | nil => rfl
  | cons x xs ih =>
    by_cases h : x = b
    · subst h
      simp [strings.ReplaceAllAux, ih]
    · have h' : ¬ b = x := fun e => h e.symm
      simp [strings.ReplaceAllAux, ih, h, h']

/-- The query value of the search: `plusForSpace` on every byte. -/
theorem ReplaceAll_space_plus (city : GoString) :
    strings.ReplaceAll city (str " ") (str "+") = city.map plusForSpace := by
  have e1 : str " " = [32] := by decide
  have e2 : str "+" = [43] := by decide
  simp only [strings.ReplaceAll, e1, e2, ReplaceAllAux_substitute]
  rfl

/-- Every request of the place search goes to the search URL whose query value
is the city name after `strings.ReplaceAll`. -/
theorem FecthSearch_request_url (env : Env) (city url : GoString) (header : Header)
    (h : Event.Do url header ∈ (FecthSearchFromWeatherAPI env city).2) :
    url = searchURL (strings.ReplaceAll city (str " ") (str "+")) := by
  unfold FecthSearchFromWeatherAPI at h
  simp only [] at h
  split at h
  · simp at h
  · split at h
    · simp at h
    · split at h
      · simp at h
        exact h.1
      · split at h
        · simp at h
          exact h.1
        · split at h
          · simp at h
            exact h.1
          · split at h
            · simp at h
              exact h.1
            · simp at h
              exact h.1

/-- The place search sends its request whenever the request can be built and
the credential is set. -/
theorem FecthSearch_sends (env : Env) (city : GoString)
    (hreq : env.NewRequest (searchURL (strings.ReplaceAll city (str " ") (str "+"))) = none)
    (hkey : env.apiKey ≠ str "") :
    (FecthSearchFromWeatherAPI env city).2 =
      [.FecthSearchFromWeatherAPI city,
        .Do (searchURL (strings.ReplaceAll city (str " ") (str "+")))
          [(str "key", env.apiKey)]] := by
  unfold FecthSearchFromWeatherAPI
  simp only [hreq, hkey, if_false]
  split
  · rfl
  · split
    · rfl
    · split
      · rfl
      · split <;> rfl

/-- C19: `FecthSearchFromWeatherAPI` puts the city name in the query with
every space replaced by `+`.  For every city name the query value has the
length of the name, holds no space, has `+` exactly at the positions where the
name has a space or a `+`, and agrees with the name at every position where
the name has no space.  Whenever the request can be built and the credential
is set, the function sends exactly one request, to
`https://api.weatherapi.com/v1/search.json?q=` followed by that value, and in
no world does it send a request to another URL.  The name `Bom Despacho`
gives the value `Bom+Despacho`. -/
theorem C19_spaces_to_plus :
    (∀ city : GoString,
      (strings.ReplaceAll city (str " ") (str "+")).length = city.length ∧
      (32 : UInt8) ∉ strings.ReplaceAll city (str " ") (str "+") ∧
      (∀ i : Nat, (strings.ReplaceAll city (str " ") (str "+"))[i]? = some 43 ↔
        (city[i]? = some 32 ∨ city[i]? = some 43)) ∧
      (∀ (i : Nat) (b : UInt8), city[i]? = some b → b ≠ 32 →
        (strings.ReplaceAll city (str " ") (str "+"))[i]? = some b) ∧
      (∀ env : Env,
        env.NewRequest (str "https://api.weatherapi.com/v1/search.json?q=" ++
          strings.ReplaceAll city (str " ") (str "+")) = none →
        env.apiKey ≠ str "" →
        (FecthSearchFromWeatherAPI env city).2 =
          [.FecthSearchFromWeatherAPI city,
            .Do (str "https://api.weatherapi.com/v1/search.json?q=" ++
              strings.ReplaceAll city (str " ") (str "+")) [(str "key", env.apiKey)]]) ∧
      (∀ (env : Env) (url : GoString) (header : Header),
        Event.Do url header ∈ (FecthSearchFromWeatherAPI env city).2 →
          url = str "https://api.weatherapi.com/v1/search.json?q=" ++
            strings.ReplaceAll city (str " ") (str "+"))) ∧
    strings.ReplaceAll (str "Bom Despacho") (str " ") (str "+") = str "Bom+Despacho" ∧
    (FecthSearchFromWeatherAPI Env.healthy (str "Bom Despacho")).2 =
      [.FecthSearchFromWeatherAPI (str "Bom Despacho"),
        .Do (str "https://api.weatherapi.com/v1/search.json?q=Bom+Despacho")
          [(str "key", str "secret")]] := by
  refine ⟨fun city => ⟨?_, ?_, ?_, ?_, fun env hreq hkey => FecthSearch_sends env city hreq hkey,
    fun env url header h => FecthSearch_request_url env city url header h⟩, by decide, by decide⟩
  · rw [ReplaceAll_space_plus, List.length_map]
  · rw [ReplaceAll_space_plus]
    intro hmem
    obtain ⟨x, -, hx⟩ := List.mem_map.mp hmem
    unfold plusForSpace at hx
    split at hx
    · exact absurd hx (by decide)
    · rename_i hne
      exact hne hx
  · intro i
    rw [ReplaceAll_space_plus, List.getElem?_map]
    cases hci : city[i]? with
    | none => simp
    | some x =>
      simp only [Option.map_some', Option.some.injEq]
      unfold plusForSpace
      by_cases hx : x = 32
      · simp [hx]
      · simp only [hx, if_false, false_or]
  · intro i b hb hne
    rw [ReplaceAll_space_plus, List.getElem?_map, hb]
    simp [plusForSpace, hne]

/-- The query for `Bom Despacho` is `Bom+Despacho`. -/
theorem ReplaceAll_Bom_Despacho :
    strings.ReplaceAll (str "Bom Despacho") (str " ") (str "+") = str "Bom+Despacho" ∧
    (FecthSearchFromWeatherAPI Env.healthy (str "Bom Despacho")).2 =
      [.FecthSearchFromWeatherAPI (str "Bom Despacho"),
        .Do (str "https://api.weatherapi.com/v1/search.json?q=Bom+Despacho")
          [(str "key", str "secret")]] := by
  refine ⟨by decide, by decide⟩

/-- C20, evaluated where the code departs from it: the function has no guard
for the empty city name; with a credential set it sends the request with an
empty query value, and when the service answers with candidates it returns the
first one with a nil error. -/
theorem C20_empty_city :
    FecthSearchFromWeatherAPI Env.healthy (str "") =
      ((some { Id := 1, Name := str "Bom Despacho", Lat := -19.73, Lon := -45.25 }, none),
        [.FecthSearchFromWeatherAPI (str ""),
          .Do (str "https://api.weatherapi.com/v1/search.json?q=") [(str "key", str "secret")]]) :=
  rfl

/-! ## The normalisation as a single pass -/

/-- C21: the normalisation of `FetchCEPData`, three successive
`strings.ReplaceAll` calls removing `-`, then `.`, then the space, is the
single pass that drops exactly those three bytes and keeps every other byte
in its order.  So the normalised string is a subsequence of the input, holds
a byte exactly when the input holds it and it is none of the three, has none
of the three bytes, is not longer than the input, and is left unchanged by a
second normalisation. -/
theorem C21_normalize_single_pass (cep : GoString) :
    viacep.normalize cep = removeSeparators cep ∧
    List.Sublist (viacep.normalize cep) cep ∧
    (∀ b : UInt8, b ∈ viacep.normalize cep ↔ b ∈ cep ∧ b ≠ 45 ∧ b ≠ 46 ∧ b ≠ 32) ∧
    ((45 : UInt8) ∉ viacep.normalize cep ∧ (46 : UInt8) ∉ viacep.normalize cep ∧
      (32 : UInt8) ∉ viacep.normalize cep) ∧
    (viacep.normalize cep).length ≤ cep.length ∧
    viacep.normalize (viacep.normalize cep) = viacep.normalize cep := by
  have hmem : ∀ b : UInt8, b ∈ viacep.normalize cep ↔ b ∈ cep ∧ b ≠ 45 ∧ b ≠ 46 ∧ b ≠ 32 := by
    intro b
    rw [normalize_eq_removeSeparators]
    simp only [removeSeparators, isSeparator, List.mem_filter, Bool.not_eq_true',
      Bool.or_eq_false_iff, decide_eq_false_iff_not, ne_eq, and_assoc]
  refine ⟨normalize_eq_removeSeparators cep, ?_, hmem, ⟨?_, ?_, ?_⟩, ?_, ?_⟩
  · rw [normalize_eq_removeSeparators]
    exact List.filter_sublist cep
  · exact fun h => ((hmem 45).mp h).2.1 rfl
  · exact fun h => ((hmem 46).mp h).2.2.1 rfl
  · exact fun h => ((hmem 32).mp h).2.2.2 rfl
  · rw [normalize_eq_removeSeparators]
    exact List.length_filter_le _ cep
  · simp only [normalize_eq_removeSeparators, removeSeparators, List.filter_filter,
      Bool.and_self]

/-- The normalisation on a string that mixes the three separators with other
bytes, evaluated call by call and as a whole. -/
theorem normalize_example :
    strings.ReplaceAll (str " 35.620-0 0.0-") (str "-") (str "") = str " 35.6200 0.0" ∧
    strings.ReplaceAll (str " 35.6200 0.0") (str ".") (str "") = str " 356200 00" ∧
    strings.ReplaceAll (str " 356200 00") (str " ") (str "") = str "35620000" ∧
    viacep.normalize (str " 35.620-0 0.0-") = str "35620000" ∧
    viacep.normalize (str "a-b.c d") = str "abcd" := by
  refine ⟨by decide, by decide, by decide, by decide, by decide⟩

/-! ## A reading that cannot be encoded -/

/-- The orchestrator in the world whose weather service reports 1e308 °C: the
three stages succeed and the reading holds the positive infinity as its
Fahrenheit field. -/
theorem GetTemperatureByCEP_overflow :
    GetTemperatureByCEP Env.overflow (str "35620-000") =
      (.ret (some { Temp_C := 1e308, Temp_F := .inf false, Temp_K := 1e308 }, none),
        (GetTemperatureByCEP Env.overflow (str "35620-000")).2) := by
  have h₁ : viacep.FetchCEPData Env.overflow (str "35620-000") =
      ((some { CEP := str "35620-000", Localidade := str "Bom Despacho", UF := str "MG" }, none),
        [.FetchCEPData (str "35620-000"), .Do (str "https://viacep.com.br/ws/35620000/json") []]) := by
    decide
  have h₂ : FecthSearchFromWeatherAPI Env.overflow (str "Bom Despacho") =
      ((some { Id := 1, Name := str "Bom Despacho", Lat := -19.73, Lon := -45.25 }, none),
        [.FecthSearchFromWeatherAPI (str "Bom Despacho"),
          .Do (str "https://api.weatherapi.com/v1/search.json?q=Bom+Despacho")
            [(str "key", str "secret")]]) := rfl
  have h₃ : FetchWeatherData Env.overflow (-19.73) (-45.25) =
      ((some { Current := { TempC := 1e308 } }, none),
        (FetchWeatherData Env.overflow (-19.73) (-45.25)).2) := rfl
  have e := GetTemperatureByCEP_success Env.overflow (str "35620-000")
    { CEP := str "35620-000", Localidade := str "Bom Despacho", UF := str "MG" } _ h₁
    { Id := 1, Name := str "Bom Despacho", Lat := -19.73, Lon := -45.25 } _ h₂
    { Current := { TempC := 1e308 } } _ h₃
  have hf : utils.ConvertCelsiusToFahrenheit
      ({ Current := { TempC := 1e308 } } : WeatherResponse).Current.TempC = .inf false := by
    decide
  have hk : utils.ConvertCelsiusToKelvin
      ({ Current := { TempC := 1e308 } } : WeatherResponse).Current.TempC = 1e308 := by
    decide
  rw [hf, hk] at e
  rw [e]

/-- C3, evaluated where the code departs from it: for
`GET /temperature?cep=35620-000`, with the postal and search services healthy
and the weather service reporting 1e308 °C, `GetTemperatureByCEP` succeeds (nil
error) with the reading 1e308 °C, +Inf °F, 1e308 K, and the handler answers 200
with an empty body: the encoder refuses the infinite field, its error is
dropped, and the three temperature fields are not sent. -/
theorem C3_success_without_fields :
    (getRequest (str "35620-000")).Method = str "GET" ∧
    (getRequest (str "35620-000")).Query.Get (str "cep") = str "35620-000" ∧
    (GetTemperatureByCEP Env.overflow (str "35620-000")).1 =
      .ret (some { Temp_C := 1e308, Temp_F := .inf false, Temp_K := 1e308 }, none) ∧
    ∃ w, (TemperatureHandler Env.overflow .fresh (getRequest (str "35620-000"))).1 = .ret w ∧
      w.Code = 200 ∧ w.Body = [] := by
  have hg : (GetTemperatureByCEP Env.overflow (str "35620-000")).1 =
      .ret (some { Temp_C := 1e308, Temp_F := .inf false, Temp_K := 1e308 }, none) := by
    rw [GetTemperatureByCEP_overflow]
  refine ⟨rfl, by decide, hg, ?_⟩
  have hh := TemperatureHandler_success Env.overflow (getRequest (str "35620-000")) rfl
    (by decide) { Temp_C := 1e308, Temp_F := .inf false, Temp_K := 1e308 } hg
  rw [hh]
  exact ⟨_, rfl, rfl, rfl⟩

/-- C4, evaluated where the code departs from it: in the same run the response
has status 200, written once, and the header `Content-Type: application/json`,
but no body at all was written: the body is not a JSON object. -/
theorem C4_response_without_body :
    ∃ t, TemperatureHandler Env.overflow .fresh (getRequest (str "35620-000")) =
      (.ret
        { header := [(str "Content-Type", str "application/json")],
          wroteHeader := true, Code := 200,
          sentHeader := [(str "Content-Type", str "application/json")],
          writeHeaderCalls := 1,
          Body := [] }, t) := by
  have hg : (GetTemperatureByCEP Env.overflow (str "35620-000")).1 =
      .ret (some { Temp_C := 1e308, Temp_F := .inf false, Temp_K := 1e308 }, none) := by
    rw [GetTemperatureByCEP_overflow]
  have hh := TemperatureHandler_success Env.overflow (getRequest (str "35620-000")) rfl
    (by decide) { Temp_C := 1e308, Temp_F := .inf false, Temp_K := 1e308 } hg
  exact ⟨_, hh⟩
